import Mathlib

/-!
Shallow embedding of the PyNS advection discretization
(pyns/discretization/advection.py) and of the generic transport step
(pyns/discretization/calc_phi.py).

Three-dimensional numpy arrays are modelled as total value functions over
natural indices together with explicit extents; machine floats are modelled
as rationals (division is total on the rationals; the code only divides by
clamped consecutive differences or by geometric distances).  In-place
mutation (matrix coefficient updates, the solver writing into the field) is
modelled by explicit state passing.  The unbound-name failures that the
Python code runs into on an unknown limiter or placement are modelled by an
error result, and the phases of array work the function performs before a
failure are recorded in an explicit trace.
-/

/-- Three-dimensional array: extents plus a total value function.  Entries
outside the extents are junk carried by the total function and are never
meaningful. -/
structure Arr3 where
  nx : Nat
  ny : Nat
  nz : Nat
  val : Nat → Nat → Nat → ℚ

/-- Absolute value on rationals written as numpy abs computes it. -/
def absQ (v : ℚ) : ℚ := if v < 0 then -v else v

namespace Arr3

/-- Elementwise map, keeping extents. -/
def map (f : ℚ → ℚ) (a : Arr3) : Arr3 :=
  ⟨a.nx, a.ny, a.nz, fun i j k => f (a.val i j k)⟩

/-- Elementwise combination; extents from the first operand (numpy requires
equal shapes). -/
def zipWith (f : ℚ → ℚ → ℚ) (a b : Arr3) : Arr3 :=
  ⟨a.nx, a.ny, a.nz, fun i j k => f (a.val i j k) (b.val i j k)⟩

/-- Elementwise sum. -/
def add : Arr3 → Arr3 → Arr3 := zipWith (· + ·)

/-- Elementwise difference. -/
def sub : Arr3 → Arr3 → Arr3 := zipWith (· - ·)

/-- Elementwise product. -/
def mul : Arr3 → Arr3 → Arr3 := zipWith (· * ·)

/-- Elementwise quotient. -/
def div : Arr3 → Arr3 → Arr3 := zipWith (· / ·)

/-- Scalar times array. -/
def smulL (c : ℚ) (a : Arr3) : Arr3 := a.map (fun v => c * v)

/-- Array times scalar. -/
def smulR (a : Arr3) (c : ℚ) : Arr3 := a.map (fun v => v * c)

/-- Scalar plus array. -/
def saddL (c : ℚ) (a : Arr3) : Arr3 := a.map (fun v => c + v)

/-- Scalar minus array (broadcast). -/
def ssubL (c : ℚ) (a : Arr3) : Arr3 := a.map (fun v => c - v)

/-- Array divided by scalar. -/
def sdivR (a : Arr3) (c : ℚ) : Arr3 := a.map (fun v => v / c)

instance : HAdd Arr3 Arr3 Arr3 := ⟨Arr3.add⟩

instance : HSub Arr3 Arr3 Arr3 := ⟨Arr3.sub⟩

instance : HMul Arr3 Arr3 Arr3 := ⟨Arr3.mul⟩

instance : HDiv Arr3 Arr3 Arr3 := ⟨Arr3.div⟩

instance : HMul ℚ Arr3 Arr3 := ⟨Arr3.smulL⟩

instance : HMul Arr3 ℚ Arr3 := ⟨Arr3.smulR⟩

instance : HAdd ℚ Arr3 Arr3 := ⟨Arr3.saddL⟩

instance : HSub ℚ Arr3 Arr3 := ⟨Arr3.ssubL⟩

instance : HDiv Arr3 ℚ Arr3 := ⟨Arr3.sdivR⟩

/-- Modelled from the spec: concatenation of two arrays along the x axis
(pyns.operators cat_x on a pair). -/
def cat_x (a b : Arr3) : Arr3 :=
  ⟨a.nx + b.nx, a.ny, a.nz,
   fun i j k => if i < a.nx then a.val i j k else b.val (i - a.nx) j k⟩

/-- Modelled from the spec: concatenation along the y axis. -/
def cat_y (a b : Arr3) : Arr3 :=
  ⟨a.nx, a.ny + b.ny, a.nz,
   fun i j k => if j < a.ny then a.val i j k else b.val i (j - a.ny) k⟩

/-- Modelled from the spec: concatenation along the z axis. -/
def cat_z (a b : Arr3) : Arr3 :=
  ⟨a.nx, a.ny, a.nz + b.nz,
   fun i j k => if k < a.nz then a.val i j k else b.val i j (k - a.nz)⟩

/-- Three-argument x concatenation, as the pyns variadic cat_x on a triple. -/
def cat3_x (a b c : Arr3) : Arr3 := cat_x a (cat_x b c)

/-- Three-argument y concatenation. -/
def cat3_y (a b c : Arr3) : Arr3 := cat_y a (cat_y b c)

/-- Three-argument z concatenation. -/
def cat3_z (a b c : Arr3) : Arr3 := cat_z a (cat_z b c)

/-- Five-argument x concatenation. -/
def cat5_x (a b c d e : Arr3) : Arr3 := cat_x a (cat_x b (cat_x c (cat_x d e)))

/-- Five-argument y concatenation. -/
def cat5_y (a b c d e : Arr3) : Arr3 := cat_y a (cat_y b (cat_y c (cat_y d e)))

/-- Five-argument z concatenation. -/
def cat5_z (a b c d e : Arr3) : Arr3 := cat_z a (cat_z b (cat_z c (cat_z d e)))

/-- Modelled from the spec: average of consecutive entries along x
(pyns.operators avg_x), one entry shorter than the input. -/
def avg_x (a : Arr3) : Arr3 :=
  ⟨a.nx - 1, a.ny, a.nz, fun i j k => (a.val i j k + a.val (i + 1) j k) / 2⟩

/-- Modelled from the spec: average of consecutive entries along y. -/
def avg_y (a : Arr3) : Arr3 :=
  ⟨a.nx, a.ny - 1, a.nz, fun i j k => (a.val i j k + a.val i (j + 1) k) / 2⟩

/-- Modelled from the spec: average of consecutive entries along z. -/
def avg_z (a : Arr3) : Arr3 :=
  ⟨a.nx, a.ny, a.nz - 1, fun i j k => (a.val i j k + a.val i j (k + 1)) / 2⟩

/-- Modelled from the spec: difference of consecutive entries along x
(pyns.operators dif_x), one entry shorter than the input. -/
def dif_x (a : Arr3) : Arr3 :=
  ⟨a.nx - 1, a.ny, a.nz, fun i j k => a.val (i + 1) j k - a.val i j k⟩

/-- Modelled from the spec: difference of consecutive entries along y. -/
def dif_y (a : Arr3) : Arr3 :=
  ⟨a.nx, a.ny - 1, a.nz, fun i j k => a.val i (j + 1) k - a.val i j k⟩

/-- Modelled from the spec: difference of consecutive entries along z. -/
def dif_z (a : Arr3) : Arr3 :=
  ⟨a.nx, a.ny, a.nz - 1, fun i j k => a.val i j (k + 1) - a.val i j k⟩

/-- Contiguous slice of length n along x starting at s (numpy a[s:s+n,:,:]). -/
def sliceX (a : Arr3) (s n : Nat) : Arr3 :=
  ⟨n, a.ny, a.nz, fun i j k => a.val (s + i) j k⟩

/-- Contiguous slice along y. -/
def sliceY (a : Arr3) (s n : Nat) : Arr3 :=
  ⟨a.nx, n, a.nz, fun i j k => a.val i (s + j) k⟩

/-- Contiguous slice along z. -/
def sliceZ (a : Arr3) (s n : Nat) : Arr3 :=
  ⟨a.nx, a.ny, n, fun i j k => a.val i j (s + k)⟩

/-- Assignment to a contiguous x slice (numpy a[s:s+b.nx,:,:] = b). -/
def setSliceX (a : Arr3) (s : Nat) (b : Arr3) : Arr3 :=
  ⟨a.nx, a.ny, a.nz,
   fun i j k => if s ≤ i ∧ i < s + b.nx then b.val (i - s) j k else a.val i j k⟩

/-- Assignment to a contiguous y slice. -/
def setSliceY (a : Arr3) (s : Nat) (b : Arr3) : Arr3 :=
  ⟨a.nx, a.ny, a.nz,
   fun i j k => if s ≤ j ∧ j < s + b.ny then b.val i (j - s) k else a.val i j k⟩

/-- Assignment to a contiguous z slice. -/
def setSliceZ (a : Arr3) (s : Nat) (b : Arr3) : Arr3 :=
  ⟨a.nx, a.ny, a.nz,
   fun i j k => if s ≤ k ∧ k < s + b.nz then b.val i j (k - s) else a.val i j k⟩

/-- Zero array of the same shape (numpy zeros(a.shape)). -/
def zerosLike (a : Arr3) : Arr3 := ⟨a.nx, a.ny, a.nz, fun _ _ _ => 0⟩

/-- One array of the same shape (numpy ones(a.shape)). -/
def onesLike (a : Arr3) : Arr3 := ⟨a.nx, a.ny, a.nz, fun _ _ _ => 1⟩

/-- Modelled from the spec: elementwise maximum of two arrays
(pyns.operators mx / numpy maximum). -/
def mx (a b : Arr3) : Arr3 := zipWith max a b

/-- Modelled from the spec: elementwise minimum of two arrays. -/
def mn (a b : Arr3) : Arr3 := zipWith min a b

/-- Variadic pyns mx on three arrays: a left fold of the binary maximum. -/
def mx3 (a b c : Arr3) : Arr3 := mx (mx a b) c

/-- Variadic pyns mn on three arrays. -/
def mn3 (a b c : Arr3) : Arr3 := mn (mn a b) c

/-- Elementwise minimum of an array and a broadcast scalar. -/
def mnS (a : Arr3) (c : ℚ) : Arr3 := a.map (fun v => min v c)

/-- Elementwise absolute value (numpy abs). -/
def absA (a : Arr3) : Arr3 := a.map absQ

/-- Modelled from the spec: elementwise logical negation (pyns.operators
lnot), producing a 0/1 indicator array. -/
def lnot (a : Arr3) : Arr3 := a.map (fun v => if v = 0 then 1 else 0)

end Arr3

namespace constants

/-- Modelled from the spec: the four placement tags of pyns.constants.  Only
distinctness of the values is relied on. -/
def C : Nat := 3

/-- Modelled from the spec: tag of a variable staggered in x. -/
def X : Nat := 0

/-- Modelled from the spec: tag of a variable staggered in y. -/
def Y : Nat := 1

/-- Modelled from the spec: tag of a variable staggered in z. -/
def Z : Nat := 2

/-- Modelled from the spec: the very small positive constant of
pyns.constants guarding the gradient-ratio divisions. -/
def TINY : ℚ := 1 / 10 ^ 12

/-- Modelled from the spec: the boundary-kind tag handed to the external
diffusion-matrix assembly by calc_phi. -/
def NEUMANN : Nat := 0

/-- Modelled from the spec: the iterative-solver tolerance of
pyns.constants used by calc_phi. -/
def TOL : ℚ := 1 / 10 ^ 8

end constants

/-- Per-axis periodicity flags (the per triple of an unknown, indexed in the
source as per[X], per[Y], per[Z]). -/
structure Per where
  x : Bool
  y : Bool
  z : Bool

/-- Unknown as produced by pyns create_unknown: values, previous time-step
values, placement tag, periodicity flags, and the six boundary slabs
bnd[W..T].val. -/
structure Unknown where
  pos : Nat
  per : Per
  val : Arr3
  old : Arr3
  bndW : Arr3
  bndE : Arr3
  bndS : Arr3
  bndN : Arr3
  bndB : Arr3
  bndT : Arr3

/-- Replace the value array of an unknown (models phi.val[:] = ...). -/
def Unknown.setVal (u : Unknown) (v : Arr3) : Unknown :=
  ⟨u.pos, u.per, v, u.old, u.bndW, u.bndE, u.bndS, u.bndN, u.bndB, u.bndT⟩

/-- System matrix: the seven stencil bands per cell, W, E, S, N, B, T
neighbours plus the central coefficient. -/
structure SystMatrix where
  W : Arr3
  E : Arr3
  S : Arr3
  N : Arr3
  B : Arr3
  T : Arr3
  C : Arr3

/-- Face-centred quantities produced by the placement-specific
reconstruction part of advection (advection.py lines 61-249): facial
density, facial area, inter-centre distance and face velocity per axis. -/
structure FaceData where
  rho_x_fac : Arr3
  rho_y_fac : Arr3
  rho_z_fac : Arr3
  a_x_fac : Arr3
  a_y_fac : Arr3
  a_z_fac : Arr3
  del_x : Arr3
  del_y : Arr3
  del_z : Arr3
  u_fac : Arr3
  v_fac : Arr3
  w_fac : Arr3

open Arr3

/-- Periodic boundary patch along x: the pattern of the two sequential slice
assignments a[:1] = a[-2:-1]; a[-1:] = a[1:2] used by advection.py for every
face array of a periodic axis (e.g. lines 80-85). -/
def patchX (a : Arr3) : Arr3 :=
  let t := setSliceX a 0 (sliceX a (a.nx - 2) 1)
  setSliceX t (t.nx - 1) (sliceX t 1 1)

/-- Periodic boundary patch along y (a[:, :1] = a[:, -2:-1]; a[:, -1:] =
a[:, 1:2]). -/
def patchY (a : Arr3) : Arr3 :=
  let t := setSliceY a 0 (sliceY a (a.ny - 2) 1)
  setSliceY t (t.ny - 1) (sliceY t 1 1)

/-- Periodic boundary patch along z. -/
def patchZ (a : Arr3) : Arr3 :=
  let t := setSliceZ a 0 (sliceZ a (a.nz - 2) 1)
  setSliceZ t (t.nz - 1) (sliceZ t 1 1)

/-- Face reconstruction for a cell-centred variable (advection.py lines
61-105): simple facial averages padded with the adjacent boundary cell
values, half-width distances at the boundary, periodic patching, and the
staggered velocities taken directly with their boundary values. -/
def faceDataC (rho : Arr3) (uf vf wf : Unknown) (dx dy dz : Arr3)
    (per : Per) : FaceData :=
  let sx := dy * dz
  let sy := dx * dz
  let sz := dx * dy
  let rho_x_fac := cat3_x (sliceX rho 0 1) (avg_x rho) (sliceX rho (rho.nx - 1) 1)
  let rho_y_fac := cat3_y (sliceY rho 0 1) (avg_y rho) (sliceY rho (rho.ny - 1) 1)
  let rho_z_fac := cat3_z (sliceZ rho 0 1) (avg_z rho) (sliceZ rho (rho.nz - 1) 1)
  let a_x_fac := cat3_x (sliceX sx 0 1) (avg_x sx) (sliceX sx (sx.nx - 1) 1)
  let a_y_fac := cat3_y (sliceY sy 0 1) (avg_y sy) (sliceY sy (sy.ny - 1) 1)
  let a_z_fac := cat3_z (sliceZ sz 0 1) (avg_z sz) (sliceZ sz (sz.nz - 1) 1)
  let del_x := cat3_x (sliceX dx 0 1 * (1/2 : ℚ)) (avg_x dx) (sliceX dx (dx.nx - 1) 1 * (1/2 : ℚ))
  let del_y := cat3_y (sliceY dy 0 1 * (1/2 : ℚ)) (avg_y dy) (sliceY dy (dy.ny - 1) 1 * (1/2 : ℚ))
  let del_z := cat3_z (sliceZ dz 0 1 * (1/2 : ℚ)) (avg_z dz) (sliceZ dz (dz.nz - 1) 1 * (1/2 : ℚ))
  let rho_x_fac := if per.x = true then patchX rho_x_fac else rho_x_fac
  let a_x_fac := if per.x = true then patchX a_x_fac else a_x_fac
  let del_x := if per.x = true then patchX del_x else del_x
  let rho_y_fac := if per.y = true then patchY rho_y_fac else rho_y_fac
  let a_y_fac := if per.y = true then patchY a_y_fac else a_y_fac
  let del_y := if per.y = true then patchY del_y else del_y
  let rho_z_fac := if per.z = true then patchZ rho_z_fac else rho_z_fac
  let a_z_fac := if per.z = true then patchZ a_z_fac else a_z_fac
  let del_z := if per.z = true then patchZ del_z else del_z
  let u_fac := cat3_x uf.bndW uf.val uf.bndE
  let v_fac := cat3_y vf.bndS vf.val vf.bndN
  let w_fac := cat3_z wf.bndB wf.val wf.bndT
  ⟨rho_x_fac, rho_y_fac, rho_z_fac, a_x_fac, a_y_fac, a_z_fac,
   del_x, del_y, del_z, u_fac, v_fac, w_fac⟩

/-- Face reconstruction for a variable staggered in x (advection.py lines
110-153). -/
def faceDataX (rho : Arr3) (uf vf wf : Unknown) (dx dy dz : Arr3)
    (per : Per) : FaceData :=
  let sx := dy * dz
  let sy := dx * dz
  let sz := dx * dy
  let rho_x_fac := rho
  let rho_nod_y := avg_x (avg_y rho)
  let rho_y_fac := cat3_y (sliceY rho_nod_y 0 1) rho_nod_y (sliceY rho_nod_y (rho_nod_y.ny - 1) 1)
  let rho_nod_z := avg_x (avg_z rho)
  let rho_z_fac := cat3_z (sliceZ rho_nod_z 0 1) rho_nod_z (sliceZ rho_nod_z (rho_nod_z.nz - 1) 1)
  let a_x_fac := sx
  let a_y_fac := cat3_y (avg_x (sliceY sy 0 1)) (avg_x (avg_y sy)) (avg_x (sliceY sy (sy.ny - 1) 1))
  let a_z_fac := cat3_z (avg_x (sliceZ sz 0 1)) (avg_x (avg_z sz)) (avg_x (sliceZ sz (sz.nz - 1) 1))
  let del_x := dx
  let del_y := avg_x (cat3_y (sliceY dy 0 1 * (1/2 : ℚ)) (avg_y dy) (sliceY dy (dy.ny - 1) 1 * (1/2 : ℚ)))
  let del_z := avg_x (cat3_z (sliceZ dz 0 1 * (1/2 : ℚ)) (avg_z dz) (sliceZ dz (dz.nz - 1) 1 * (1/2 : ℚ)))
  let rho_y_fac := if per.y = true then patchY rho_y_fac else rho_y_fac
  let a_y_fac := if per.y = true then patchY a_y_fac else a_y_fac
  let del_y := if per.y = true then patchY del_y else del_y
  let rho_z_fac := if per.z = true then patchZ rho_z_fac else rho_z_fac
  let a_z_fac := if per.z = true then patchZ a_z_fac else a_z_fac
  let del_z := if per.z = true then patchZ del_z else del_z
  let u_fac := cat3_x uf.bndW (avg_x uf.val) uf.bndE
  let v_fac := avg_x (cat3_y vf.bndS vf.val vf.bndN)
  let w_fac := avg_x (cat3_z wf.bndB wf.val wf.bndT)
  ⟨rho_x_fac, rho_y_fac, rho_z_fac, a_x_fac, a_y_fac, a_z_fac,
   del_x, del_y, del_z, u_fac, v_fac, w_fac⟩

/-- Face reconstruction for a variable staggered in y (advection.py lines
158-201). -/
def faceDataY (rho : Arr3) (uf vf wf : Unknown) (dx dy dz : Arr3)
    (per : Per) : FaceData :=
  let sx := dy * dz
  let sy := dx * dz
  let sz := dx * dy
  let rho_nod_x := avg_y (avg_x rho)
  let rho_x_fac := cat3_x (sliceX rho_nod_x 0 1) rho_nod_x (sliceX rho_nod_x (rho_nod_x.nx - 1) 1)
  let rho_y_fac := rho
  let rho_nod_z := avg_y (avg_z rho)
  let rho_z_fac := cat3_z (sliceZ rho_nod_z 0 1) rho_nod_z (sliceZ rho_nod_z (rho_nod_z.nz - 1) 1)
  let a_x_fac := cat3_x (avg_y (sliceX sx 0 1)) (avg_y (avg_x sx)) (avg_y (sliceX sx (sx.nx - 1) 1))
  let a_y_fac := sy
  let a_z_fac := cat3_z (avg_y (sliceZ sz 0 1)) (avg_y (avg_z sz)) (avg_y (sliceZ sz (sz.nz - 1) 1))
  let del_x := avg_y (cat3_x (sliceX dx 0 1 * (1/2 : ℚ)) (avg_x dx) (sliceX dx (dx.nx - 1) 1 * (1/2 : ℚ)))
  let del_y := dy
  let del_z := avg_y (cat3_z (sliceZ dz 0 1 * (1/2 : ℚ)) (avg_z dz) (sliceZ dz (dz.nz - 1) 1 * (1/2 : ℚ)))
  let rho_x_fac := if per.x = true then patchX rho_x_fac else rho_x_fac
  let a_x_fac := if per.x = true then patchX a_x_fac else a_x_fac
  let del_x := if per.x = true then patchX del_x else del_x
  let rho_z_fac := if per.z = true then patchZ rho_z_fac else rho_z_fac
  let a_z_fac := if per.z = true then patchZ a_z_fac else a_z_fac
  let del_z := if per.z = true then patchZ del_z else del_z
  let u_fac := avg_y (cat3_x uf.bndW uf.val uf.bndE)
  let v_fac := cat3_y vf.bndS (avg_y vf.val) vf.bndN
  let w_fac := avg_y (cat3_z wf.bndB wf.val wf.bndT)
  ⟨rho_x_fac, rho_y_fac, rho_z_fac, a_x_fac, a_y_fac, a_z_fac,
   del_x, del_y, del_z, u_fac, v_fac, w_fac⟩

/-- Face reconstruction for a variable staggered in z (advection.py lines
206-249). -/
def faceDataZ (rho : Arr3) (uf vf wf : Unknown) (dx dy dz : Arr3)
    (per : Per) : FaceData :=
  let sx := dy * dz
  let sy := dx * dz
  let sz := dx * dy
  let rho_nod_x := avg_z (avg_x rho)
  let rho_x_fac := cat3_x (sliceX rho_nod_x 0 1) rho_nod_x (sliceX rho_nod_x (rho_nod_x.nx - 1) 1)
  let rho_nod_y := avg_z (avg_y rho)
  let rho_y_fac := cat3_y (sliceY rho_nod_y 0 1) rho_nod_y (sliceY rho_nod_y (rho_nod_y.ny - 1) 1)
  let rho_z_fac := rho
  let a_x_fac := cat3_x (avg_z (sliceX sx 0 1)) (avg_z (avg_x sx)) (avg_z (sliceX sx (sx.nx - 1) 1))
  let a_y_fac := cat3_y (avg_z (sliceY sy 0 1)) (avg_z (avg_y sy)) (avg_z (sliceY sy (sy.ny - 1) 1))
  let a_z_fac := sz
  let del_x := avg_z (cat3_x (sliceX dx 0 1 * (1/2 : ℚ)) (avg_x dx) (sliceX dx (dx.nx - 1) 1 * (1/2 : ℚ)))
  let del_y := avg_z (cat3_y (sliceY dy 0 1 * (1/2 : ℚ)) (avg_y dy) (sliceY dy (dy.ny - 1) 1 * (1/2 : ℚ)))
  let del_z := dz
  let rho_x_fac := if per.x = true then patchX rho_x_fac else rho_x_fac
  let a_x_fac := if per.x = true then patchX a_x_fac else a_x_fac
  let del_x := if per.x = true then patchX del_x else del_x
  let rho_y_fac := if per.y = true then patchY rho_y_fac else rho_y_fac
  let a_y_fac := if per.y = true then patchY a_y_fac else a_y_fac
  let del_y := if per.y = true then patchY del_y else del_y
  let u_fac := avg_z (cat3_x uf.bndW uf.val uf.bndE)
  let v_fac := avg_z (cat3_y vf.bndS vf.val vf.bndN)
  let w_fac := cat3_z wf.bndB (avg_z wf.val) wf.bndT
  ⟨rho_x_fac, rho_y_fac, rho_z_fac, a_x_fac, a_y_fac, a_z_fac,
   del_x, del_y, del_z, u_fac, v_fac, w_fac⟩

/-- Placement dispatch of the face reconstruction: the four ifs of
advection.py lines 61, 110, 158, 206 (the tags are distinct, so at most one
branch fires); none models the case where no branch fires and the facial
arrays are left unbound. -/
def faceData (rho : Arr3) (phi uf vf wf : Unknown) (dx dy dz : Arr3) :
    Option FaceData :=
  if phi.pos = constants.C then some (faceDataC rho uf vf wf dx dy dz phi.per)
  else if phi.pos = constants.X then some (faceDataX rho uf vf wf dx dy dz phi.per)
  else if phi.pos = constants.Y then some (faceDataY rho uf vf wf dx dy dz phi.per)
  else if phi.pos = constants.Z then some (faceDataZ rho uf vf wf dx dy dz phi.per)
  else none

/-- Consecutive differences along x before the dead-zone clamp
(advection.py lines 277-287): non-periodic axes duplicate the boundary
values twice; a periodic axis wraps two cells deep for a variable staggered
in that axis and one cell deep (offset by one) otherwise. -/
def d_x_raw (phi : Unknown) : Arr3 :=
  if phi.per.x = false then
    dif_x (cat5_x phi.bndW phi.bndW phi.val phi.bndE phi.bndE)
  else if phi.pos = constants.X then
    dif_x (cat3_x (sliceX phi.val (phi.val.nx - 2) 2) phi.val (sliceX phi.val 0 2))
  else
    dif_x (cat3_x (sliceX phi.val (phi.val.nx - 3) 2) phi.val (sliceX phi.val 1 2))

/-- Consecutive differences along y before the clamp (lines 291-301). -/
def d_y_raw (phi : Unknown) : Arr3 :=
  if phi.per.y = false then
    dif_y (cat5_y phi.bndS phi.bndS phi.val phi.bndN phi.bndN)
  else if phi.pos = constants.Y then
    dif_y (cat3_y (sliceY phi.val (phi.val.ny - 2) 2) phi.val (sliceY phi.val 0 2))
  else
    dif_y (cat3_y (sliceY phi.val (phi.val.ny - 3) 2) phi.val (sliceY phi.val 1 2))

/-- Consecutive differences along z before the clamp (lines 305-315). -/
def d_z_raw (phi : Unknown) : Arr3 :=
  if phi.per.z = false then
    dif_z (cat5_z phi.bndB phi.bndB phi.val phi.bndT phi.bndT)
  else if phi.pos = constants.Z then
    dif_z (cat3_z (sliceZ phi.val (phi.val.nz - 2) 2) phi.val (sliceZ phi.val 0 2))
  else
    dif_z (cat3_z (sliceZ phi.val (phi.val.nz - 3) 2) phi.val (sliceZ phi.val 1 2))

/-- First masked pass of the dead-zone clamp (advection.py line 288): every
value in (-TINY, 0] becomes -TINY. -/
def clamp1 (v : ℚ) : ℚ :=
  if -constants.TINY < v ∧ v ≤ 0 then -constants.TINY else v

/-- Second masked pass of the clamp (line 289), applied to the updated
array: every value in [0, TINY) becomes TINY. -/
def clamp2 (v : ℚ) : ℚ :=
  if 0 ≤ v ∧ v < constants.TINY then constants.TINY else v

/-- Both clamp passes in sequence. -/
def clampTiny (v : ℚ) : ℚ := clamp2 (clamp1 v)

/-- Clamped consecutive differences along x (lines 277-289). -/
def d_x (phi : Unknown) : Arr3 := ((d_x_raw phi).map clamp1).map clamp2

/-- Clamped consecutive differences along y (lines 291-303). -/
def d_y (phi : Unknown) : Arr3 := ((d_y_raw phi).map clamp1).map clamp2

/-- Clamped consecutive differences along z (lines 305-317). -/
def d_z (phi : Unknown) : Arr3 := ((d_z_raw phi).map clamp1).map clamp2

/-- Gradient ratio for west-to-east flow (line 320). -/
def r_x_we (phi : Unknown) : Arr3 :=
  sliceX (d_x phi) 1 ((d_x phi).nx - 2) / sliceX (d_x phi) 0 ((d_x phi).nx - 2)

/-- Gradient ratio for east-to-west flow (line 321). -/
def r_x_ew (phi : Unknown) : Arr3 :=
  sliceX (d_x phi) 2 ((d_x phi).nx - 2) / sliceX (d_x phi) 1 ((d_x phi).nx - 2)

/-- Gradient ratio for south-to-north flow (line 322). -/
def r_y_sn (phi : Unknown) : Arr3 :=
  sliceY (d_y phi) 1 ((d_y phi).ny - 2) / sliceY (d_y phi) 0 ((d_y phi).ny - 2)

/-- Gradient ratio for north-to-south flow (line 323). -/
def r_y_ns (phi : Unknown) : Arr3 :=
  sliceY (d_y phi) 2 ((d_y phi).ny - 2) / sliceY (d_y phi) 1 ((d_y phi).ny - 2)

/-- Gradient ratio for bottom-to-top flow (line 324). -/
def r_z_bt (phi : Unknown) : Arr3 :=
  sliceZ (d_z phi) 1 ((d_z phi).nz - 2) / sliceZ (d_z phi) 0 ((d_z phi).nz - 2)

/-- Gradient ratio for top-to-bottom flow (line 325). -/
def r_z_tb (phi : Unknown) : Arr3 :=
  sliceZ (d_z phi) 2 ((d_z phi).nz - 2) / sliceZ (d_z phi) 1 ((d_z phi).nz - 2)

/-- West-to-east flow mask, 1 where the x face velocity is nonnegative
(line 327). -/
def flow_we (fd : FaceData) : Arr3 :=
  fd.u_fac.map (fun v => if 0 ≤ v then 1 else 0)

/-- East-to-west flow mask, logical complement of flow_we (line 328). -/
def flow_ew (fd : FaceData) : Arr3 := lnot (flow_we fd)

/-- South-to-north flow mask (line 329). -/
def flow_sn (fd : FaceData) : Arr3 :=
  fd.v_fac.map (fun v => if 0 ≤ v then 1 else 0)

/-- North-to-south flow mask (line 330). -/
def flow_ns (fd : FaceData) : Arr3 := lnot (flow_sn fd)

/-- Bottom-to-top flow mask (line 331). -/
def flow_bt (fd : FaceData) : Arr3 :=
  fd.w_fac.map (fun v => if 0 ≤ v then 1 else 0)

/-- Top-to-bottom flow mask (line 332). -/
def flow_tb (fd : FaceData) : Arr3 := lnot (flow_bt fd)

/-- Direction-selected gradient ratio along x (line 334). -/
def r_x (phi : Unknown) (fd : FaceData) : Arr3 :=
  r_x_we phi * flow_we fd + r_x_ew phi * flow_ew fd

/-- Direction-selected gradient ratio along y (line 335). -/
def r_y (phi : Unknown) (fd : FaceData) : Arr3 :=
  r_y_sn phi * flow_sn fd + r_y_ns phi * flow_ns fd

/-- Direction-selected gradient ratio along z (line 336). -/
def r_z (phi : Unknown) (fd : FaceData) : Arr3 :=
  r_z_bt phi * flow_bt fd + r_z_tb phi * flow_tb fd

/-- Limiter dispatch (advection.py lines 339-354) applied to one selected
ratio array; none models the fall-through of the if/elif chain on an
unknown limiter name, which leaves the psi arrays unbound. -/
def psiOf (limiter : String) (r : Arr3) : Option Arr3 :=
  if limiter = "upwind" then some (r * (0 : ℚ))
  else if limiter = "minmod" then
    some (mx (zerosLike r) (mn r (onesLike r)))
  else if limiter = "superbee" then
    some (mx3 (zerosLike r) (mn ((2 : ℚ) * r) (onesLike r)) (mnS r 2))
  else if limiter = "koren" then
    some (mx (zerosLike r) (mn3 ((2 : ℚ) * r) (((2 : ℚ) + r) / (3 : ℚ)) ((2 : ℚ) * onesLike r)))
  else none

/-- Limited face flux along x, density and area factors included
(advection.py lines 356-360 and 373): upwind donor flux plus the
antidiffusive correction weighted by the local Courant factor. -/
def flux_fac_lim_x (phi : Unknown) (fd : FaceData) (psi_x : Arr3) (dt : ℚ) : Arr3 :=
  ( cat_x phi.bndW phi.val * fd.u_fac * flow_we fd
  + cat_x phi.val phi.bndE * fd.u_fac * flow_ew fd
  + (1/2 : ℚ) * absA fd.u_fac * ((1 : ℚ) - absA fd.u_fac * dt / fd.del_x)
    * ( psi_x * sliceX (d_x phi) 0 ((d_x phi).nx - 2) * flow_we fd
      + psi_x * sliceX (d_x phi) 1 ((d_x phi).nx - 2) * flow_ew fd))
  * (fd.rho_x_fac * fd.a_x_fac)

/-- Limited face flux along y (lines 361-365 and 374). -/
def flux_fac_lim_y (phi : Unknown) (fd : FaceData) (psi_y : Arr3) (dt : ℚ) : Arr3 :=
  ( cat_y phi.bndS phi.val * fd.v_fac * flow_sn fd
  + cat_y phi.val phi.bndN * fd.v_fac * flow_ns fd
  + (1/2 : ℚ) * absA fd.v_fac * ((1 : ℚ) - absA fd.v_fac * dt / fd.del_y)
    * ( psi_y * sliceY (d_y phi) 0 ((d_y phi).ny - 2) * flow_sn fd
      + psi_y * sliceY (d_y phi) 1 ((d_y phi).ny - 2) * flow_ns fd))
  * (fd.rho_y_fac * fd.a_y_fac)

/-- Limited face flux along z (lines 366-370 and 375). -/
def flux_fac_lim_z (phi : Unknown) (fd : FaceData) (psi_z : Arr3) (dt : ℚ) : Arr3 :=
  ( cat_z phi.bndB phi.val * fd.w_fac * flow_bt fd
  + cat_z phi.val phi.bndT * fd.w_fac * flow_tb fd
  + (1/2 : ℚ) * absA fd.w_fac * ((1 : ℚ) - absA fd.w_fac * dt / fd.del_z)
    * ( psi_z * sliceZ (d_z phi) 0 ((d_z phi).nz - 2) * flow_bt fd
      + psi_z * sliceZ (d_z phi) 1 ((d_z phi).nz - 2) * flow_tb fd))
  * (fd.rho_z_fac * fd.a_z_fac)

/-- Limited flux divergence: sum over the three axes of the per-cell flux
differences (advection.py lines 378-380). -/
def c_lim (phi : Unknown) (fd : FaceData) (psi_x psi_y psi_z : Arr3) (dt : ℚ) : Arr3 :=
  dif_x (flux_fac_lim_x phi fd psi_x dt)
  + dif_y (flux_fac_lim_y phi fd psi_y dt)
  + dif_z (flux_fac_lim_z phi fd psi_z dt)

/-- Upwind-only face flux along x, density and area factors included
(advection.py lines 400-401 and 408). -/
def flux_fac_upw_x (phi : Unknown) (fd : FaceData) : Arr3 :=
  ( cat_x phi.bndW phi.val * fd.u_fac * flow_we fd
  + cat_x phi.val phi.bndE * fd.u_fac * flow_ew fd)
  * (fd.rho_x_fac * fd.a_x_fac)

/-- Upwind-only face flux along y (lines 402-403 and 409). -/
def flux_fac_upw_y (phi : Unknown) (fd : FaceData) : Arr3 :=
  ( cat_y phi.bndS phi.val * fd.v_fac * flow_sn fd
  + cat_y phi.val phi.bndN * fd.v_fac * flow_ns fd)
  * (fd.rho_y_fac * fd.a_y_fac)

/-- Upwind-only face flux along z (lines 404-405 and 410). -/
def flux_fac_upw_z (phi : Unknown) (fd : FaceData) : Arr3 :=
  ( cat_z phi.bndB phi.val * fd.w_fac * flow_bt fd
  + cat_z phi.val phi.bndT * fd.w_fac * flow_tb fd)
  * (fd.rho_z_fac * fd.a_z_fac)

/-- Upwind flux divergence (advection.py lines 413-415). -/
def c_upw (phi : Unknown) (fd : FaceData) : Arr3 :=
  dif_x (flux_fac_upw_x phi fd)
  + dif_y (flux_fac_upw_y phi fd)
  + dif_z (flux_fac_upw_z phi fd)

/-- Upwind contributions to the seven matrix bands (advection.py lines
384-397): each axis adds the positive-direction face mass flow to the
lower neighbour band, subtracts the negative-direction one from the upper
neighbour band, and adds their difference to the central band. -/
def fillMatrix (m : SystMatrix) (fd : FaceData) : SystMatrix :=
  let fwe := fd.u_fac * flow_we fd * fd.rho_x_fac * fd.a_x_fac
  let few := fd.u_fac * flow_ew fd * fd.rho_x_fac * fd.a_x_fac
  let fsn := fd.v_fac * flow_sn fd * fd.rho_y_fac * fd.a_y_fac
  let fns := fd.v_fac * flow_ns fd * fd.rho_y_fac * fd.a_y_fac
  let fbt := fd.w_fac * flow_bt fd * fd.rho_z_fac * fd.a_z_fac
  let ftb := fd.w_fac * flow_tb fd * fd.rho_z_fac * fd.a_z_fac
  ⟨ m.W + sliceX fwe 0 (fwe.nx - 1),
    m.E - sliceX few 1 (few.nx - 1),
    m.S + sliceY fsn 0 (fsn.ny - 1),
    m.N - sliceY fns 1 (fns.ny - 1),
    m.B + sliceZ fbt 0 (fbt.nz - 1),
    m.T - sliceZ ftb 1 (ftb.nz - 1),
    m.C + (sliceX fwe 0 (fwe.nx - 1) - sliceX few 1 (few.nx - 1))
        + (sliceY fsn 0 (fsn.ny - 1) - sliceY fns 1 (fns.ny - 1))
        + (sliceZ fbt 0 (fbt.nz - 1) - sliceZ ftb 1 (ftb.nz - 1)) ⟩

/-- Phases of array work performed by the advection routine, recorded in
source order: the halo exchanges of lines 53-56, the placement-specific
face reconstruction (61-249), the consecutive differences (277-317), the
gradient ratios (320-325), the flow-direction masks (327-336), the limiter
evaluation (339-354), the flux assembly and divergence (356-380), and the
matrix filling together with the upwind divergence (383-415). -/
inductive Step where
  | exchange
  | reconstruction
  | differences
  | ratios
  | flows
  | limiterEval
  | fluxAssembly
  | matrixFill
deriving DecidableEq

/-- Failure mode of the Python routine: a NameError raised at the first use
of a variable no branch assigned. -/
inductive AdvErr where
  | nameError (ident : String)
deriving DecidableEq

/-- Outcome of one advection call: the phases of work that ran, and either
the returned divergence array (with the updated matrix in matrix mode) or
the unbound-name failure. -/
structure AdvOut where
  trace : List Step
  result : Except AdvErr (Arr3 × Option SystMatrix)

/-- Advection routine (advection.py lines 15-419).  With an unsupported
placement none of the reconstruction branches runs, the differences and
ratios are still computed, and the first use of the unbound face velocity
at line 327 raises; with an unknown limiter the psi arrays stay unbound and
the flux assembly at line 356 raises.  In matrix mode the upwind
coefficients are inserted into the matrix and the deferred correction
c_lim - c_upw is returned; otherwise c_lim is returned directly. -/
def advection (rho : Arr3) (phi uf vf wf : Unknown) (dx dy dz : Arr3)
    (dt : ℚ) (limiter : String) (matrix : Option SystMatrix) : AdvOut :=
  match faceData rho phi uf vf wf dx dy dz with
  | none =>
      ⟨[Step.exchange, Step.differences, Step.ratios],
       Except.error (AdvErr.nameError "u_fac")⟩
  | some fd =>
      match psiOf limiter (r_x phi fd), psiOf limiter (r_y phi fd),
            psiOf limiter (r_z phi fd) with
      | some psi_x, some psi_y, some psi_z =>
          match matrix with
          | none =>
              ⟨[Step.exchange, Step.reconstruction, Step.differences,
                Step.ratios, Step.flows, Step.limiterEval, Step.fluxAssembly],
               Except.ok (c_lim phi fd psi_x psi_y psi_z dt, none)⟩
          | some m =>
              ⟨[Step.exchange, Step.reconstruction, Step.differences,
                Step.ratios, Step.flows, Step.limiterEval, Step.fluxAssembly,
                Step.matrixFill],
               Except.ok (c_lim phi fd psi_x psi_y psi_z dt - c_upw phi fd,
                          some (fillMatrix m fd))⟩
      | _, _, _ =>
          ⟨[Step.exchange, Step.reconstruction, Step.differences,
            Step.ratios, Step.flows],
           Except.error (AdvErr.nameError "psi_x")⟩

/-- Transport step (calc_phi.py lines 21-73).  The external collaborators
(diffusion-matrix assembly, iterative solver, boundary refresh, placement
averaging) are taken as function parameters; the in-place update of phi is
modelled by returning the updated unknown, the Python function itself
returning None. -/
def calc_phi
    (create_matrix : Unknown → Arr3 → Arr3 → Arr3 × Arr3 × Arr3 → Option Arr3 → Nat → SystMatrix)
    (bicgstab : SystMatrix → Unknown → Arr3 → ℚ → Arr3)
    (adj_n_bnds : Unknown → Unknown)
    (avg : Nat → Arr3 → Arr3)
    (phi uf vf wf : Unknown) (density gamma : Arr3) (dt : ℚ)
    (dx dy dz : Arr3) (obst : Option Arr3) (src : Option Arr3) :
    Except AdvErr Unknown :=
  let A_phi := create_matrix phi (density / dt) gamma (dx, dy, dz) obst constants.NEUMANN
  let b_phi := zerosLike phi.val
  match (advection density phi uf vf wf dx dy dz dt "minmod" none).result with
  | Except.error e => Except.error e
  | Except.ok (c_phi, _) =>
      let i_phi := phi.old * avg phi.pos density * avg phi.pos (dx * dy * dz) / dt
      let s_phi :=
        match src with
        | none => zerosLike phi.val
        | some s => s * avg phi.pos (dx * dy * dz)
      let f_phi := b_phi - c_phi + i_phi + s_phi
      let phi1 := Unknown.setVal phi (bicgstab A_phi phi f_phi constants.TOL)
      Except.ok (adj_n_bnds phi1)

/-- The closed set of limiter names advection supports. -/
def validLimiters : List String := ["upwind", "minmod", "superbee", "koren"]

/-- The four defined variable placements. -/
def validPos (p : Nat) : Prop :=
  p = constants.C ∨ p = constants.X ∨ p = constants.Y ∨ p = constants.Z

instance (p : Nat) : Decidable (validPos p) := by
  unfold validPos
  infer_instance

/-- Spatial uniformity of an array: every entry of the total value function
equals the given constant. -/
def IsConst (a : Arr3) (c : ℚ) : Prop := ∀ i j k, a.val i j k = c

/-- Concrete constant array builder used by the witnesses and
counterexamples below. -/
def mkConst (nx ny nz : Nat) (c : ℚ) : Arr3 := ⟨nx, ny, nz, fun _ _ _ => c⟩

/-- Concrete cell-centred unknown on a single-cell grid, uniformly 5,
non-periodic. -/
def cexPhi : Unknown :=
  ⟨constants.C, ⟨false, false, false⟩, mkConst 1 1 1 5, mkConst 1 1 1 5,
   mkConst 1 1 1 5, mkConst 1 1 1 5, mkConst 1 1 1 5, mkConst 1 1 1 5,
   mkConst 1 1 1 5, mkConst 1 1 1 5⟩

/-- Concrete x-staggered velocity component, zero on the west boundary face
and one on the east boundary face: a non-uniform, not identically zero
velocity. -/
def cexUf : Unknown :=
  ⟨constants.X, ⟨false, false, false⟩, mkConst 0 1 1 0, mkConst 0 1 1 0,
   mkConst 1 1 1 0, mkConst 1 1 1 1, mkConst 1 1 1 0, mkConst 1 1 1 0,
   mkConst 1 1 1 0, mkConst 1 1 1 0⟩

/-- Concrete y-staggered velocity component, identically zero. -/
def cexVf : Unknown :=
  ⟨constants.Y, ⟨false, false, false⟩, mkConst 1 0 1 0, mkConst 1 0 1 0,
   mkConst 1 1 1 0, mkConst 1 1 1 0, mkConst 1 1 1 0, mkConst 1 1 1 0,
   mkConst 1 1 1 0, mkConst 1 1 1 0⟩

/-- Concrete z-staggered velocity component, identically zero. -/
def cexWf : Unknown :=
  ⟨constants.Z, ⟨false, false, false⟩, mkConst 1 1 0 0, mkConst 1 1 0 0,
   mkConst 1 1 1 0, mkConst 1 1 1 0, mkConst 1 1 1 0, mkConst 1 1 1 0,
   mkConst 1 1 1 0, mkConst 1 1 1 0⟩

/-- Concrete single-cell array of ones, used for density and cell sizes. -/
def cexOne : Arr3 := mkConst 1 1 1 1

/-- Concrete system matrix with all bands equal to one. -/
def cexM : SystMatrix :=
  ⟨cexOne, cexOne, cexOne, cexOne, cexOne, cexOne, cexOne⟩

/-- Concrete x-staggered velocity component, uniformly one (value and its
west and east boundary slabs). -/
def uniUf : Unknown :=
  ⟨constants.X, ⟨false, false, false⟩, mkConst 0 1 1 1, mkConst 0 1 1 1,
   mkConst 1 1 1 1, mkConst 1 1 1 1, mkConst 1 1 1 1, mkConst 1 1 1 1,
   mkConst 1 1 1 1, mkConst 1 1 1 1⟩

/-- Concrete y-staggered velocity component, uniformly one. -/
def uniVf : Unknown :=
  ⟨constants.Y, ⟨false, false, false⟩, mkConst 1 0 1 1, mkConst 1 0 1 1,
   mkConst 1 1 1 1, mkConst 1 1 1 1, mkConst 1 1 1 1, mkConst 1 1 1 1,
   mkConst 1 1 1 1, mkConst 1 1 1 1⟩

/-- Concrete z-staggered velocity component, uniformly one. -/
def uniWf : Unknown :=
  ⟨constants.Z, ⟨false, false, false⟩, mkConst 1 1 0 1, mkConst 1 1 0 1,
   mkConst 1 1 1 1, mkConst 1 1 1 1, mkConst 1 1 1 1, mkConst 1 1 1 1,
   mkConst 1 1 1 1, mkConst 1 1 1 1⟩

/-- Concrete cell-centred unknown with a step profile along x (values 0 then
1 over two cells, boundary slabs 0 west and 1 east), giving a nonzero raw
consecutive difference. -/
def stepPhi : Unknown :=
  ⟨constants.C, ⟨false, false, false⟩,
   ⟨2, 1, 1, fun i _ _ => if i = 0 then 0 else 1⟩,
   ⟨2, 1, 1, fun i _ _ => if i = 0 then 0 else 1⟩,
   mkConst 1 1 1 0, mkConst 1 1 1 1, mkConst 1 1 1 0, mkConst 1 1 1 1,
   mkConst 1 1 1 0, mkConst 1 1 1 1⟩

/-- Concrete face data with identically zero face velocities. -/
def fdZero : FaceData :=
  ⟨mkConst 2 1 1 1, mkConst 1 2 1 1, mkConst 1 1 2 1,
   mkConst 2 1 1 1, mkConst 1 2 1 1, mkConst 1 1 2 1,
   mkConst 2 1 1 1, mkConst 1 2 1 1, mkConst 1 1 2 1,
   mkConst 2 1 1 0, mkConst 1 2 1 0, mkConst 1 1 2 0⟩

/-- Trivial diffusion-matrix collaborator for the calc_phi witness. -/
def wCreate : Unknown → Arr3 → Arr3 → Arr3 × Arr3 × Arr3 → Option Arr3 → Nat → SystMatrix :=
  fun _ _ _ _ _ _ => cexM

/-- Trivial solver collaborator: returns the right-hand side. -/
def wSolve : SystMatrix → Unknown → Arr3 → ℚ → Arr3 := fun _ _ f _ => f

/-- Trivial boundary-refresh collaborator. -/
def wAdj : Unknown → Unknown := fun u => u

/-- Trivial placement-averaging collaborator. -/
def wAvg : Nat → Arr3 → Arr3 := fun _ a => a

/-! Pointwise evaluation lemmas for the array operations. -/

namespace Arr3

@[simp] theorem add_val (a b : Arr3) (i j k : Nat) :
    (a + b).val i j k = a.val i j k + b.val i j k := rfl

@[simp] theorem sub_val (a b : Arr3) (i j k : Nat) :
    (a - b).val i j k = a.val i j k - b.val i j k := rfl

@[simp] theorem mul_val (a b : Arr3) (i j k : Nat) :
    (a * b).val i j k = a.val i j k * b.val i j k := rfl

@[simp] theorem div_val (a b : Arr3) (i j k : Nat) :
    (a / b).val i j k = a.val i j k / b.val i j k := rfl

@[simp] theorem smulL_val (c : ℚ) (a : Arr3) (i j k : Nat) :
    (c * a).val i j k = c * a.val i j k := rfl

@[simp] theorem smulR_val (a : Arr3) (c : ℚ) (i j k : Nat) :
    (a * c).val i j k = a.val i j k * c := rfl

@[simp] theorem saddL_val (c : ℚ) (a : Arr3) (i j k : Nat) :
    (c + a).val i j k = c + a.val i j k := rfl

@[simp] theorem ssubL_val (c : ℚ) (a : Arr3) (i j k : Nat) :
    (c - a).val i j k = c - a.val i j k := rfl

@[simp] theorem sdivR_val (a : Arr3) (c : ℚ) (i j k : Nat) :
    (a / c).val i j k = a.val i j k / c := rfl

@[simp] theorem cat_x_val (a b : Arr3) (i j k : Nat) :
    (cat_x a b).val i j k =
      if i < a.nx then a.val i j k else b.val (i - a.nx) j k := rfl

@[simp] theorem cat_y_val (a b : Arr3) (i j k : Nat) :
    (cat_y a b).val i j k =
      if j < a.ny then a.val i j k else b.val i (j - a.ny) k := rfl

@[simp] theorem cat_z_val (a b : Arr3) (i j k : Nat) :
    (cat_z a b).val i j k =
      if k < a.nz then a.val i j k else b.val i j (k - a.nz) := rfl

@[simp] theorem avg_x_val (a : Arr3) (i j k : Nat) :
    (avg_x a).val i j k = (a.val i j k + a.val (i + 1) j k) / 2 := rfl

@[simp] theorem avg_y_val (a : Arr3) (i j k : Nat) :
    (avg_y a).val i j k = (a.val i j k + a.val i (j + 1) k) / 2 := rfl

@[simp] theorem avg_z_val (a : Arr3) (i j k : Nat) :
    (avg_z a).val i j k = (a.val i j k + a.val i j (k + 1)) / 2 := rfl

@[simp] theorem dif_x_val (a : Arr3) (i j k : Nat) :
    (dif_x a).val i j k = a.val (i + 1) j k - a.val i j k := rfl

@[simp] theorem dif_y_val (a : Arr3) (i j k : Nat) :
    (dif_y a).val i j k = a.val i (j + 1) k - a.val i j k := rfl

@[simp] theorem dif_z_val (a : Arr3) (i j k : Nat) :
    (dif_z a).val i j k = a.val i j (k + 1) - a.val i j k := rfl

@[simp] theorem sliceX_val (a : Arr3) (s n i j k : Nat) :
    (sliceX a s n).val i j k = a.val (s + i) j k := rfl

@[simp] theorem sliceY_val (a : Arr3) (s n i j k : Nat) :
    (sliceY a s n).val i j k = a.val i (s + j) k := rfl

@[simp] theorem sliceZ_val (a : Arr3) (s n i j k : Nat) :
    (sliceZ a s n).val i j k = a.val i j (s + k) := rfl

@[simp] theorem setSliceX_val (a : Arr3) (s : Nat) (b : Arr3) (i j k : Nat) :
    (setSliceX a s b).val i j k =
      if s ≤ i ∧ i < s + b.nx then b.val (i - s) j k else a.val i j k := rfl

@[simp] theorem setSliceY_val (a : Arr3) (s : Nat) (b : Arr3) (i j k : Nat) :
    (setSliceY a s b).val i j k =
      if s ≤ j ∧ j < s + b.ny then b.val i (j - s) k else a.val i j k := rfl

@[simp] theorem setSliceZ_val (a : Arr3) (s : Nat) (b : Arr3) (i j k : Nat) :
    (setSliceZ a s b).val i j k =
      if s ≤ k ∧ k < s + b.nz then b.val i j (k - s) else a.val i j k := rfl

@[simp] theorem zerosLike_val (a : Arr3) (i j k : Nat) :
    (zerosLike a).val i j k = 0 := rfl

@[simp] theorem onesLike_val (a : Arr3) (i j k : Nat) :
    (onesLike a).val i j k = 1 := rfl

@[simp] theorem mx_val (a b : Arr3) (i j k : Nat) :
    (mx a b).val i j k = max (a.val i j k) (b.val i j k) := rfl

@[simp] theorem mn_val (a b : Arr3) (i j k : Nat) :
    (mn a b).val i j k = min (a.val i j k) (b.val i j k) := rfl

@[simp] theorem mnS_val (a : Arr3) (c : ℚ) (i j k : Nat) :
    (mnS a c).val i j k = min (a.val i j k) c := rfl

@[simp] theorem absA_val (a : Arr3) (i j k : Nat) :
    (absA a).val i j k = absQ (a.val i j k) := rfl

@[simp] theorem lnot_val (a : Arr3) (i j k : Nat) :
    (lnot a).val i j k = if a.val i j k = 0 then 1 else 0 := rfl

@[simp] theorem ite_val (b : Prop) [Decidable b] (x y : Arr3) (i j k : Nat) :
    (if b then x else y).val i j k = if b then x.val i j k else y.val i j k := by
  split <;> rfl

theorem ext2 {a b : Arr3} (h1 : a.nx = b.nx) (h2 : a.ny = b.ny)
    (h3 : a.nz = b.nz) (h4 : ∀ i j k, a.val i j k = b.val i j k) : a = b := by
  cases a
  cases b
  simp only [Arr3.mk.injEq]
  exact ⟨h1, h2, h3, funext fun i => funext fun j => funext fun k => h4 i j k⟩

end Arr3

@[simp] theorem flow_we_val (fd : FaceData) (i j k : Nat) :
    (flow_we fd).val i j k = if 0 ≤ fd.u_fac.val i j k then 1 else 0 := rfl

@[simp] theorem flow_sn_val (fd : FaceData) (i j k : Nat) :
    (flow_sn fd).val i j k = if 0 ≤ fd.v_fac.val i j k then 1 else 0 := rfl

@[simp] theorem flow_bt_val (fd : FaceData) (i j k : Nat) :
    (flow_bt fd).val i j k = if 0 ≤ fd.w_fac.val i j k then 1 else 0 := rfl

theorem flow_ew_def (fd : FaceData) : flow_ew fd = Arr3.lnot (flow_we fd) := rfl

theorem flow_ns_def (fd : FaceData) : flow_ns fd = Arr3.lnot (flow_sn fd) := rfl

theorem flow_tb_def (fd : FaceData) : flow_tb fd = Arr3.lnot (flow_bt fd) := rfl

/-! Basic facts about the constants and the clamp. -/

theorem TINY_pos : 0 < constants.TINY := by norm_num [constants.TINY]

/-- The whole dead zone (-TINY, 0] is sent to -TINY by the two clamp
passes: the first pass maps it to -TINY and the second pass no longer
fires on the already negative value. -/
theorem clampTiny_nonpos (v : ℚ) (h1 : -constants.TINY < v) (h2 : v ≤ 0) :
    clampTiny v = -constants.TINY := by
  have ht := TINY_pos
  have hc1 : clamp1 v = -constants.TINY := by
    unfold clamp1
    exact if_pos ⟨h1, h2⟩
  unfold clampTiny
  rw [hc1]
  unfold clamp2
  rw [if_neg]
  intro hc
  linarith [hc.1]

/-- A value that is exactly zero is clamped to the negative side. -/
theorem clampTiny_zero : clampTiny 0 = -constants.TINY := by
  have ht := TINY_pos
  exact clampTiny_nonpos 0 (by linarith) le_rfl

/-- Only strictly positive dead-zone values are clamped to +TINY. -/
theorem clampTiny_pos (v : ℚ) (h1 : 0 < v) (h2 : v < constants.TINY) :
    clampTiny v = constants.TINY := by
  have ht := TINY_pos
  have hc1 : clamp1 v = v := by
    unfold clamp1
    rw [if_neg]
    intro hc
    linarith [hc.2]
  unfold clampTiny
  rw [hc1]
  unfold clamp2
  exact if_pos ⟨le_of_lt h1, h2⟩

/-- Values outside the dead zone pass through both clamps unchanged. -/
theorem clampTiny_id (v : ℚ) (h : constants.TINY ≤ absQ v) : clampTiny v = v := by
  have ht := TINY_pos
  unfold absQ at h
  by_cases hv : v < 0
  · rw [if_pos hv] at h
    have hc1 : clamp1 v = v := by
      unfold clamp1
      rw [if_neg]
      intro hc
      linarith [hc.1]
    unfold clampTiny
    rw [hc1]
    unfold clamp2
    rw [if_neg]
    intro hc
    linarith [hc.1]
  · rw [if_neg hv] at h
    push_neg at hv
    have hc1 : clamp1 v = v := by
      unfold clamp1
      rw [if_neg]
      intro hc
      linarith [hc.1, hc.2]
    unfold clampTiny
    rw [hc1]
    unfold clamp2
    rw [if_neg]
    intro hc
    linarith [hc.2]

/-- The clamp leaves every value with magnitude at least TINY. -/
theorem clampTiny_abs (v : ℚ) : constants.TINY ≤ absQ (clampTiny v) := by
  have ht := TINY_pos
  by_cases h1 : -constants.TINY < v ∧ v ≤ 0
  · rw [clampTiny_nonpos v h1.1 h1.2]
    unfold absQ
    rw [if_pos (by linarith)]
    linarith
  · by_cases h2 : 0 < v ∧ v < constants.TINY
    · rw [clampTiny_pos v h2.1 h2.2]
      unfold absQ
      rw [if_neg (by linarith)]
    · have habs : constants.TINY ≤ absQ v := by
        unfold absQ
        by_cases hv : v < 0
        · rw [if_pos hv]
          by_cases hlt : -constants.TINY < v
          · exact absurd ⟨hlt, le_of_lt hv⟩ h1
          · push_neg at hlt
            linarith
        · rw [if_neg hv]
          push_neg at hv
          rcases eq_or_lt_of_le hv with he | hlt
          · exfalso
            apply h1
            constructor
            · rw [← he]
              linarith
            · rw [← he]
          · by_cases hT : v < constants.TINY
            · exact absurd ⟨hlt, hT⟩ h2
            · push_neg at hT
              exact hT
      rw [clampTiny_id v habs]
      exact habs

/-- The clamp never flips the sign of a nonzero value. -/
theorem clampTiny_sign (v : ℚ) (hv : v ≠ 0) : 0 < v ↔ 0 < clampTiny v := by
  have ht := TINY_pos
  rcases lt_trichotomy v 0 with h | h | h
  · constructor
    · intro hc
      linarith
    · intro hc
      exfalso
      by_cases h1 : -constants.TINY < v
      · rw [clampTiny_nonpos v h1 (le_of_lt h)] at hc
        linarith
      · push_neg at h1
        rw [clampTiny_id v (by unfold absQ; rw [if_pos h]; linarith)] at hc
        linarith
  · exact absurd h hv
  · constructor
    · intro _
      by_cases h2 : v < constants.TINY
      · rw [clampTiny_pos v h h2]
        linarith
      · push_neg at h2
        rw [clampTiny_id v (by unfold absQ; rw [if_neg (by linarith)]; exact h2)]
        exact h
    · intro _
      exact h

/-! Dispatch lemmas: placements and limiter names. -/

theorem faceData_eq_none (rho : Arr3) (phi uf vf wf : Unknown) (dx dy dz : Arr3)
    (h : ¬ validPos phi.pos) :
    faceData rho phi uf vf wf dx dy dz = none := by
  unfold validPos at h
  push_neg at h
  obtain ⟨h1, h2, h3, h4⟩ := h
  unfold faceData
  simp [h1, h2, h3, h4]

theorem faceData_isSome (rho : Arr3) (phi uf vf wf : Unknown) (dx dy dz : Arr3)
    (h : validPos phi.pos) :
    ∃ fd, faceData rho phi uf vf wf dx dy dz = some fd := by
  unfold faceData
  rcases h with h | h | h | h <;>
    simp [h, constants.C, constants.X, constants.Y, constants.Z]

theorem psiOf_upwind (r : Arr3) :
    psiOf "upwind" r = some (r * (0 : ℚ)) := rfl

theorem psiOf_minmod (r : Arr3) :
    psiOf "minmod" r = some (mx (zerosLike r) (mn r (onesLike r))) := rfl

theorem psiOf_superbee (r : Arr3) :
    psiOf "superbee" r =
      some (mx3 (zerosLike r) (mn ((2 : ℚ) * r) (onesLike r)) (mnS r 2)) := rfl

theorem psiOf_koren (r : Arr3) :
    psiOf "koren" r =
      some (mx (zerosLike r)
        (mn3 ((2 : ℚ) * r) (((2 : ℚ) + r) / (3 : ℚ)) ((2 : ℚ) * onesLike r))) := rfl

theorem psiOf_isSome {limiter : String} (r : Arr3) (h : limiter ∈ validLimiters) :
    ∃ p, psiOf limiter r = some p := by
  simp only [validLimiters, List.mem_cons, List.mem_singleton, List.not_mem_nil,
    or_false] at h
  rcases h with h | h | h | h <;> subst h
  · exact ⟨_, psiOf_upwind r⟩
  · exact ⟨_, psiOf_minmod r⟩
  · exact ⟨_, psiOf_superbee r⟩
  · exact ⟨_, psiOf_koren r⟩

theorem psiOf_eq_none {limiter : String} (r : Arr3) (h : limiter ∉ validLimiters) :
    psiOf limiter r = none := by
  simp only [validLimiters, List.mem_cons, List.mem_singleton, List.not_mem_nil,
    or_false, not_or] at h
  obtain ⟨h1, h2, h3, h4⟩ := h
  unfold psiOf
  simp [h1, h2, h3, h4]

/-! Reduction lemmas for the advection routine. -/

theorem advection_explicit_eq (rho : Arr3) (phi uf vf wf : Unknown)
    (dx dy dz : Arr3) (dt : ℚ) (limiter : String) {fd : FaceData}
    {px py pz : Arr3}
    (hfd : faceData rho phi uf vf wf dx dy dz = some fd)
    (hx : psiOf limiter (r_x phi fd) = some px)
    (hy : psiOf limiter (r_y phi fd) = some py)
    (hz : psiOf limiter (r_z phi fd) = some pz) :
    advection rho phi uf vf wf dx dy dz dt limiter none =
      ⟨[Step.exchange, Step.reconstruction, Step.differences, Step.ratios,
        Step.flows, Step.limiterEval, Step.fluxAssembly],
       Except.ok (c_lim phi fd px py pz dt, none)⟩ := by
  simp only [advection, hfd, hx, hy, hz]

theorem advection_matrix_eq (rho : Arr3) (phi uf vf wf : Unknown)
    (dx dy dz : Arr3) (dt : ℚ) (limiter : String) (m : SystMatrix)
    {fd : FaceData} {px py pz : Arr3}
    (hfd : faceData rho phi uf vf wf dx dy dz = some fd)
    (hx : psiOf limiter (r_x phi fd) = some px)
    (hy : psiOf limiter (r_y phi fd) = some py)
    (hz : psiOf limiter (r_z phi fd) = some pz) :
    advection rho phi uf vf wf dx dy dz dt limiter (some m) =
      ⟨[Step.exchange, Step.reconstruction, Step.differences, Step.ratios,
        Step.flows, Step.limiterEval, Step.fluxAssembly, Step.matrixFill],
       Except.ok (c_lim phi fd px py pz dt - c_upw phi fd,
                  some (fillMatrix m fd))⟩ := by
  simp only [advection, hfd, hx, hy, hz]

theorem advection_badPos_eq (rho : Arr3) (phi uf vf wf : Unknown)
    (dx dy dz : Arr3) (dt : ℚ) (limiter : String) (matrix : Option SystMatrix)
    (h : ¬ validPos phi.pos) :
    advection rho phi uf vf wf dx dy dz dt limiter matrix =
      ⟨[Step.exchange, Step.differences, Step.ratios],
       Except.error (AdvErr.nameError "u_fac")⟩ := by
  simp only [advection, faceData_eq_none rho phi uf vf wf dx dy dz h]

theorem advection_badLimiter_eq (rho : Arr3) (phi uf vf wf : Unknown)
    (dx dy dz : Arr3) (dt : ℚ) (limiter : String) (matrix : Option SystMatrix)
    {fd : FaceData}
    (hfd : faceData rho phi uf vf wf dx dy dz = some fd)
    (h : limiter ∉ validLimiters) :
    advection rho phi uf vf wf dx dy dz dt limiter matrix =
      ⟨[Step.exchange, Step.reconstruction, Step.differences, Step.ratios,
        Step.flows],
       Except.error (AdvErr.nameError "psi_x")⟩ := by
  simp only [advection, hfd, psiOf_eq_none (r_x phi fd) h,
    psiOf_eq_none (r_y phi fd) h, psiOf_eq_none (r_z phi fd) h]

/-- With a pointwise-zero correction factor the limited flux collapses to
the upwind flux: the upwind limiter contributes no antidiffusive term. -/
theorem c_lim_psi_zero (phi : Unknown) (fd : FaceData) (dt : ℚ)
    (px py pz : Arr3)
    (hx : ∀ i j k, px.val i j k = 0)
    (hy : ∀ i j k, py.val i j k = 0)
    (hz : ∀ i j k, pz.val i j k = 0) :
    c_lim phi fd px py pz dt = c_upw phi fd := by
  apply Arr3.ext2
  · rfl
  · rfl
  · rfl
  · intro i j k
    unfold c_lim c_upw flux_fac_lim_x flux_fac_lim_y flux_fac_lim_z
      flux_fac_upw_x flux_fac_upw_y flux_fac_upw_z
    simp only [Arr3.add_val, Arr3.sub_val, Arr3.mul_val, Arr3.div_val,
      Arr3.smulL_val, Arr3.smulR_val, Arr3.ssubL_val, Arr3.dif_x_val,
      Arr3.dif_y_val, Arr3.dif_z_val, Arr3.sliceX_val, Arr3.sliceY_val,
      Arr3.sliceZ_val, hx, hy, hz]
    ring

/-- C5: for every input with a supported placement, the upwind limiter
gives a limited-flux result equal to the upwind-only flux divergence
exactly (the antidiffusive correction is identically zero), so the
explicit-mode upwind output equals the c_upw quantity of matrix mode,
and the matrix-mode upwind return value is pointwise zero. -/
theorem C5_upwind_equals_upwind_flux (rho : Arr3) (phi uf vf wf : Unknown)
    (dx dy dz : Arr3) (dt : ℚ) (m : SystMatrix)
    (hpos : validPos phi.pos) :
    ∃ fd, faceData rho phi uf vf wf dx dy dz = some fd
      ∧ (advection rho phi uf vf wf dx dy dz dt "upwind" none).result =
          Except.ok (c_upw phi fd, none)
      ∧ ∃ z m2,
          (advection rho phi uf vf wf dx dy dz dt "upwind" (some m)).result =
            Except.ok (z, some m2)
          ∧ ∀ i j k, z.val i j k = 0 := by
  obtain ⟨fd, hfd⟩ := faceData_isSome rho phi uf vf wf dx dy dz hpos
  have hupw : c_lim phi fd (r_x phi fd * (0 : ℚ)) (r_y phi fd * (0 : ℚ))
      (r_z phi fd * (0 : ℚ)) dt = c_upw phi fd := by
    apply c_lim_psi_zero <;> intro i j k <;> simp
  refine ⟨fd, hfd, ?_, ?_⟩
  · rw [advection_explicit_eq rho phi uf vf wf dx dy dz dt "upwind" hfd
      (psiOf_upwind (r_x phi fd)) (psiOf_upwind (r_y phi fd))
      (psiOf_upwind (r_z phi fd))]
    rw [show (⟨[Step.exchange, Step.reconstruction, Step.differences,
        Step.ratios, Step.flows, Step.limiterEval, Step.fluxAssembly],
        Except.ok (c_lim phi fd (r_x phi fd * (0 : ℚ)) (r_y phi fd * (0 : ℚ))
          (r_z phi fd * (0 : ℚ)) dt, none)⟩ : AdvOut).result =
        Except.ok (c_lim phi fd (r_x phi fd * (0 : ℚ)) (r_y phi fd * (0 : ℚ))
          (r_z phi fd * (0 : ℚ)) dt, none) from rfl, hupw]
  · refine ⟨c_lim phi fd (r_x phi fd * (0 : ℚ)) (r_y phi fd * (0 : ℚ))
        (r_z phi fd * (0 : ℚ)) dt - c_upw phi fd, fillMatrix m fd, ?_, ?_⟩
    · rw [advection_matrix_eq rho phi uf vf wf dx dy dz dt "upwind" m hfd
        (psiOf_upwind (r_x phi fd)) (psiOf_upwind (r_y phi fd))
        (psiOf_upwind (r_z phi fd))]
    · intro i j k
      rw [show (c_lim phi fd (r_x phi fd * (0 : ℚ)) (r_y phi fd * (0 : ℚ))
          (r_z phi fd * (0 : ℚ)) dt - c_upw phi fd).val i j k =
          (c_lim phi fd (r_x phi fd * (0 : ℚ)) (r_y phi fd * (0 : ℚ))
            (r_z phi fd * (0 : ℚ)) dt).val i j k - (c_upw phi fd).val i j k
          from rfl, hupw]
      ring

/-- Closed witness instantiating C5 at a concrete single-cell setup. -/
theorem C5_witness :
    validPos cexPhi.pos ∧
    ∃ fd, faceData cexOne cexPhi cexUf cexVf cexWf cexOne cexOne cexOne = some fd
      ∧ (advection cexOne cexPhi cexUf cexVf cexWf cexOne cexOne cexOne 0 "upwind" none).result =
          Except.ok (c_upw cexPhi fd, none)
      ∧ ∃ z m2,
          (advection cexOne cexPhi cexUf cexVf cexWf cexOne cexOne cexOne 0 "upwind" (some cexM)).result =
            Except.ok (z, some m2)
          ∧ ∀ i j k, z.val i j k = 0 :=
  ⟨by decide,
   C5_upwind_equals_upwind_flux cexOne cexPhi cexUf cexVf cexWf cexOne cexOne cexOne 0 cexM (by decide)⟩

/-- C1: in matrix mode the function returns the limited flux divergence
minus the upwind-only flux divergence, and this deferred correction equals
the explicit-mode result for the same limiter minus the explicit-mode
result for the upwind limiter on the same inputs. -/
theorem C1_deferred_correction_identity (rho : Arr3) (phi uf vf wf : Unknown)
    (dx dy dz : Arr3) (dt : ℚ) (limiter : String) (m : SystMatrix)
    (hpos : validPos phi.pos) (hlim : limiter ∈ validLimiters) :
    ∃ y u d m2,
      (advection rho phi uf vf wf dx dy dz dt limiter none).result =
        Except.ok (y, none)
      ∧ (advection rho phi uf vf wf dx dy dz dt "upwind" none).result =
          Except.ok (u, none)
      ∧ (advection rho phi uf vf wf dx dy dz dt limiter (some m)).result =
          Except.ok (d, some m2)
      ∧ ∀ i j k, d.val i j k = y.val i j k - u.val i j k := by
  obtain ⟨fd, hfd⟩ := faceData_isSome rho phi uf vf wf dx dy dz hpos
  obtain ⟨px, hx⟩ := psiOf_isSome (r_x phi fd) hlim
  obtain ⟨py, hy⟩ := psiOf_isSome (r_y phi fd) hlim
  obtain ⟨pz, hz⟩ := psiOf_isSome (r_z phi fd) hlim
  have hupw : c_lim phi fd (r_x phi fd * (0 : ℚ)) (r_y phi fd * (0 : ℚ))
      (r_z phi fd * (0 : ℚ)) dt = c_upw phi fd := by
    apply c_lim_psi_zero <;> intro i j k <;> simp
  refine ⟨c_lim phi fd px py pz dt, c_upw phi fd,
    c_lim phi fd px py pz dt - c_upw phi fd, fillMatrix m fd, ?_, ?_, ?_, ?_⟩
  · rw [advection_explicit_eq rho phi uf vf wf dx dy dz dt limiter hfd hx hy hz]
  · rw [advection_explicit_eq rho phi uf vf wf dx dy dz dt "upwind" hfd
      (psiOf_upwind (r_x phi fd)) (psiOf_upwind (r_y phi fd))
      (psiOf_upwind (r_z phi fd))]
    rw [show (⟨[Step.exchange, Step.reconstruction, Step.differences,
        Step.ratios, Step.flows, Step.limiterEval, Step.fluxAssembly],
        Except.ok (c_lim phi fd (r_x phi fd * (0 : ℚ)) (r_y phi fd * (0 : ℚ))
          (r_z phi fd * (0 : ℚ)) dt, none)⟩ : AdvOut).result =
        Except.ok (c_lim phi fd (r_x phi fd * (0 : ℚ)) (r_y phi fd * (0 : ℚ))
          (r_z phi fd * (0 : ℚ)) dt, none) from rfl, hupw]
  · rw [advection_matrix_eq rho phi uf vf wf dx dy dz dt limiter m hfd hx hy hz]
  · intro i j k
    rfl

/-- Closed witness instantiating C1 at a concrete single-cell setup with
the minmod limiter. -/
theorem C1_witness :
    validPos cexPhi.pos ∧ "minmod" ∈ validLimiters ∧
    ∃ y u d m2,
      (advection cexOne cexPhi cexUf cexVf cexWf cexOne cexOne cexOne 0 "minmod" none).result =
        Except.ok (y, none)
      ∧ (advection cexOne cexPhi cexUf cexVf cexWf cexOne cexOne cexOne 0 "upwind" none).result =
          Except.ok (u, none)
      ∧ (advection cexOne cexPhi cexUf cexVf cexWf cexOne cexOne cexOne 0 "minmod" (some cexM)).result =
          Except.ok (d, some m2)
      ∧ ∀ i j k, d.val i j k = y.val i j k - u.val i j k :=
  ⟨by decide, by decide,
   C1_deferred_correction_identity cexOne cexPhi cexUf cexVf cexWf cexOne cexOne cexOne 0 "minmod" cexM
     (by decide) (by decide)⟩

/-- C3: in matrix mode the coefficient increments conserve row balance:
for every cell the increment of the central band equals the sum of the
increments of the six neighbour bands, so applied to a spatially uniform
field (central coefficient counted positively, neighbour coefficients
negatively, which is how the bands enter the seven-band operator) the net
matrix contribution of each face is zero; each face adds its upwind mass
flow to the neighbour band on the downstream side and with the same
magnitude to that row's central band. -/
theorem C3_matrix_row_balance (rho : Arr3) (phi uf vf wf : Unknown)
    (dx dy dz : Arr3) (dt : ℚ) (limiter : String) (m : SystMatrix)
    (hpos : validPos phi.pos) (hlim : limiter ∈ validLimiters) :
    ∃ d m2,
      (advection rho phi uf vf wf dx dy dz dt limiter (some m)).result =
        Except.ok (d, some m2)
      ∧ ∀ i j k,
          m2.C.val i j k - m.C.val i j k =
            (m2.W.val i j k - m.W.val i j k) + (m2.E.val i j k - m.E.val i j k)
            + (m2.S.val i j k - m.S.val i j k) + (m2.N.val i j k - m.N.val i j k)
            + (m2.B.val i j k - m.B.val i j k) + (m2.T.val i j k - m.T.val i j k) := by
  obtain ⟨fd, hfd⟩ := faceData_isSome rho phi uf vf wf dx dy dz hpos
  obtain ⟨px, hx⟩ := psiOf_isSome (r_x phi fd) hlim
  obtain ⟨py, hy⟩ := psiOf_isSome (r_y phi fd) hlim
  obtain ⟨pz, hz⟩ := psiOf_isSome (r_z phi fd) hlim
  refine ⟨c_lim phi fd px py pz dt - c_upw phi fd, fillMatrix m fd, ?_, ?_⟩
  · rw [advection_matrix_eq rho phi uf vf wf dx dy dz dt limiter m hfd hx hy hz]
  · intro i j k
    simp only [fillMatrix, Arr3.add_val, Arr3.sub_val, Arr3.sliceX_val,
      Arr3.sliceY_val, Arr3.sliceZ_val]
    ring

/-- Closed witness instantiating C3 at a concrete single-cell setup. -/
theorem C3_witness :
    validPos cexPhi.pos ∧ "superbee" ∈ validLimiters ∧
    ∃ d m2,
      (advection cexOne cexPhi cexUf cexVf cexWf cexOne cexOne cexOne 0 "superbee" (some cexM)).result =
        Except.ok (d, some m2)
      ∧ ∀ i j k,
          m2.C.val i j k - cexM.C.val i j k =
            (m2.W.val i j k - cexM.W.val i j k) + (m2.E.val i j k - cexM.E.val i j k)
            + (m2.S.val i j k - cexM.S.val i j k) + (m2.N.val i j k - cexM.N.val i j k)
            + (m2.B.val i j k - cexM.B.val i j k) + (m2.T.val i j k - cexM.T.val i j k) :=
  ⟨by decide, by decide,
   C3_matrix_row_balance cexOne cexPhi cexUf cexVf cexWf cexOne cexOne cexOne 0 "superbee" cexM
     (by decide) (by decide)⟩

/-- Counterexample to C2 as stated: on a concrete well-shaped input with
the unknown limiter name "quick", the failure is an unbound-name error that
surfaces only after the face reconstruction, the consecutive differences,
the gradient ratios, and the flow masks have all run — not before any array
work begins. -/
theorem C2_counterexample :
    Step.differences ∈
      (advection cexOne cexPhi cexUf cexVf cexWf cexOne cexOne cexOne 0 "quick" none).trace
    ∧ (advection cexOne cexPhi cexUf cexVf cexWf cexOne cexOne cexOne 0 "quick" none).trace =
        [Step.exchange, Step.reconstruction, Step.differences, Step.ratios, Step.flows]
    ∧ (advection cexOne cexPhi cexUf cexVf cexWf cexOne cexOne cexOne 0 "quick" none).result =
        Except.error (AdvErr.nameError "psi_x") :=
  ⟨by decide, by decide, rfl⟩

/-- C2 amended: an unknown limiter name or an unsupported placement makes
compute_advection fail with an unbound-name error, producing no result and
writing no matrix coefficients, but the failure surfaces only after the
consecutive-difference and gradient-ratio array work (and, for an unknown
limiter, after reconstruction and the flow masks too), not before any array
work begins. -/
theorem C2_amended_late_failure (rho : Arr3) (phi uf vf wf : Unknown)
    (dx dy dz : Arr3) (dt : ℚ) (limiter : String) (matrix : Option SystMatrix)
    (h : ¬ validPos phi.pos ∨ limiter ∉ validLimiters) :
    (∃ e, (advection rho phi uf vf wf dx dy dz dt limiter matrix).result =
        Except.error e)
    ∧ Step.differences ∈
        (advection rho phi uf vf wf dx dy dz dt limiter matrix).trace
    ∧ Step.matrixFill ∉
        (advection rho phi uf vf wf dx dy dz dt limiter matrix).trace := by
  rcases h with h | h
  · rw [advection_badPos_eq rho phi uf vf wf dx dy dz dt limiter matrix h]
    exact ⟨⟨_, rfl⟩, by decide, by decide⟩
  · by_cases hpos : validPos phi.pos
    · obtain ⟨fd, hfd⟩ := faceData_isSome rho phi uf vf wf dx dy dz hpos
      rw [advection_badLimiter_eq rho phi uf vf wf dx dy dz dt limiter matrix hfd h]
      exact ⟨⟨_, rfl⟩, by decide, by decide⟩
    · rw [advection_badPos_eq rho phi uf vf wf dx dy dz dt limiter matrix hpos]
      exact ⟨⟨_, rfl⟩, by decide, by decide⟩

/-- Closed witness instantiating the amended C2 with the unknown limiter
name "quick" on a concrete input. -/
theorem C2_witness :
    (¬ validPos cexPhi.pos ∨ "quick" ∉ validLimiters)
    ∧ ((∃ e, (advection cexOne cexPhi cexUf cexVf cexWf cexOne cexOne cexOne 0 "quick" (some cexM)).result =
          Except.error e)
      ∧ Step.differences ∈
          (advection cexOne cexPhi cexUf cexVf cexWf cexOne cexOne cexOne 0 "quick" (some cexM)).trace
      ∧ Step.matrixFill ∉
          (advection cexOne cexPhi cexUf cexVf cexWf cexOne cexOne cexOne 0 "quick" (some cexM)).trace) :=
  ⟨Or.inr (by decide),
   C2_amended_late_failure cexOne cexPhi cexUf cexVf cexWf cexOne cexOne cexOne 0 "quick" (some cexM)
     (Or.inr (by decide))⟩

/-- C6: for every ratio array and every entry, the minmod, superbee and
koren limiter outputs lie in [0, 2] and the upwind limiter output is
identically zero. -/
theorem C6_limiter_bounds (r : Arr3) (i j k : Nat) :
    (∀ p, psiOf "upwind" r = some p → p.val i j k = 0)
    ∧ (∀ p, psiOf "minmod" r = some p → 0 ≤ p.val i j k ∧ p.val i j k ≤ 2)
    ∧ (∀ p, psiOf "superbee" r = some p → 0 ≤ p.val i j k ∧ p.val i j k ≤ 2)
    ∧ (∀ p, psiOf "koren" r = some p → 0 ≤ p.val i j k ∧ p.val i j k ≤ 2) := by
  refine ⟨?_, ?_, ?_, ?_⟩
  · intro p hp
    rw [psiOf_upwind] at hp
    injection hp with hp
    subst hp
    simp
  · intro p hp
    rw [psiOf_minmod] at hp
    injection hp with hp
    subst hp
    simp only [Arr3.mx_val, Arr3.mn_val, Arr3.zerosLike_val, Arr3.onesLike_val]
    constructor
    · exact le_max_left 0 _
    · apply max_le (by norm_num)
      exact le_trans (min_le_right _ _) (by norm_num)
  · intro p hp
    rw [psiOf_superbee] at hp
    injection hp with hp
    subst hp
    simp only [Arr3.mx3, Arr3.mx_val, Arr3.mn_val, Arr3.mnS_val,
      Arr3.zerosLike_val, Arr3.onesLike_val, Arr3.smulL_val]
    constructor
    · exact le_trans (le_max_left 0 _) (le_max_left _ _)
    · apply max_le
      · apply max_le (by norm_num)
        exact le_trans (min_le_right _ _) (by norm_num)
      · exact min_le_right _ _
  · intro p hp
    rw [psiOf_koren] at hp
    injection hp with hp
    subst hp
    simp only [Arr3.mn3, Arr3.mx_val, Arr3.mn_val, Arr3.zerosLike_val,
      Arr3.onesLike_val, Arr3.smulL_val, Arr3.sdivR_val, Arr3.saddL_val,
      mul_one]
    constructor
    · exact le_max_left 0 _
    · apply max_le (by norm_num)
      exact min_le_right _ _

/-- Closed witness instantiating C6 at a concrete ratio array. -/
theorem C6_witness :
    (psiOf "upwind" cexOne = some (cexOne * (0 : ℚ))
      ∧ (cexOne * (0 : ℚ)).val 0 0 0 = 0)
    ∧ (psiOf "minmod" cexOne = some (mx (zerosLike cexOne) (mn cexOne (onesLike cexOne)))
      ∧ 0 ≤ (mx (zerosLike cexOne) (mn cexOne (onesLike cexOne))).val 0 0 0
      ∧ (mx (zerosLike cexOne) (mn cexOne (onesLike cexOne))).val 0 0 0 ≤ 2)
    ∧ (psiOf "superbee" cexOne =
        some (mx3 (zerosLike cexOne) (mn ((2 : ℚ) * cexOne) (onesLike cexOne)) (mnS cexOne 2))
      ∧ 0 ≤ (mx3 (zerosLike cexOne) (mn ((2 : ℚ) * cexOne) (onesLike cexOne)) (mnS cexOne 2)).val 0 0 0
      ∧ (mx3 (zerosLike cexOne) (mn ((2 : ℚ) * cexOne) (onesLike cexOne)) (mnS cexOne 2)).val 0 0 0 ≤ 2)
    ∧ (psiOf "koren" cexOne =
        some (mx (zerosLike cexOne)
          (mn3 ((2 : ℚ) * cexOne) (((2 : ℚ) + cexOne) / (3 : ℚ)) ((2 : ℚ) * onesLike cexOne)))
      ∧ 0 ≤ (mx (zerosLike cexOne)
          (mn3 ((2 : ℚ) * cexOne) (((2 : ℚ) + cexOne) / (3 : ℚ)) ((2 : ℚ) * onesLike cexOne))).val 0 0 0
      ∧ (mx (zerosLike cexOne)
          (mn3 ((2 : ℚ) * cexOne) (((2 : ℚ) + cexOne) / (3 : ℚ)) ((2 : ℚ) * onesLike cexOne))).val 0 0 0 ≤ 2) :=
  ⟨⟨rfl, (C6_limiter_bounds cexOne 0 0 0).1 _ rfl⟩,
   ⟨rfl, (C6_limiter_bounds cexOne 0 0 0).2.1 _ rfl⟩,
   ⟨rfl, (C6_limiter_bounds cexOne 0 0 0).2.2.1 _ rfl⟩,
   ⟨rfl, (C6_limiter_bounds cexOne 0 0 0).2.2.2 _ rfl⟩⟩

/-- C7: after the clamp every consecutive-difference entry has magnitude at
least TINY, every originally nonzero entry keeps its sign, and every
gradient-ratio denominator entry has magnitude at least TINY, so the
divisions cannot divide by zero. -/
theorem C7_clamp_magnitude_sign (phi : Unknown) (i j k : Nat) :
    (constants.TINY ≤ absQ ((d_x phi).val i j k)
      ∧ ((d_x_raw phi).val i j k ≠ 0 →
          (0 < (d_x_raw phi).val i j k ↔ 0 < (d_x phi).val i j k)))
    ∧ (constants.TINY ≤ absQ ((d_y phi).val i j k)
      ∧ ((d_y_raw phi).val i j k ≠ 0 →
          (0 < (d_y_raw phi).val i j k ↔ 0 < (d_y phi).val i j k)))
    ∧ (constants.TINY ≤ absQ ((d_z phi).val i j k)
      ∧ ((d_z_raw phi).val i j k ≠ 0 →
          (0 < (d_z_raw phi).val i j k ↔ 0 < (d_z phi).val i j k)))
    ∧ constants.TINY ≤ absQ ((sliceX (d_x phi) 0 ((d_x phi).nx - 2)).val i j k)
    ∧ constants.TINY ≤ absQ ((sliceX (d_x phi) 1 ((d_x phi).nx - 2)).val i j k)
    ∧ constants.TINY ≤ absQ ((sliceY (d_y phi) 0 ((d_y phi).ny - 2)).val i j k)
    ∧ constants.TINY ≤ absQ ((sliceY (d_y phi) 1 ((d_y phi).ny - 2)).val i j k)
    ∧ constants.TINY ≤ absQ ((sliceZ (d_z phi) 0 ((d_z phi).nz - 2)).val i j k)
    ∧ constants.TINY ≤ absQ ((sliceZ (d_z phi) 1 ((d_z phi).nz - 2)).val i j k) := by
  have hdx : ∀ i j k, (d_x phi).val i j k = clampTiny ((d_x_raw phi).val i j k) :=
    fun _ _ _ => rfl
  have hdy : ∀ i j k, (d_y phi).val i j k = clampTiny ((d_y_raw phi).val i j k) :=
    fun _ _ _ => rfl
  have hdz : ∀ i j k, (d_z phi).val i j k = clampTiny ((d_z_raw phi).val i j k) :=
    fun _ _ _ => rfl
  refine ⟨⟨?_, ?_⟩, ⟨?_, ?_⟩, ⟨?_, ?_⟩, ?_, ?_, ?_, ?_, ?_, ?_⟩
  · rw [hdx]
    exact clampTiny_abs _
  · intro hne
    rw [hdx]
    exact clampTiny_sign _ hne
  · rw [hdy]
    exact clampTiny_abs _
  · intro hne
    rw [hdy]
    exact clampTiny_sign _ hne
  · rw [hdz]
    exact clampTiny_abs _
  · intro hne
    rw [hdz]
    exact clampTiny_sign _ hne
  · rw [Arr3.sliceX_val, hdx]
    exact clampTiny_abs _
  · rw [Arr3.sliceX_val, hdx]
    exact clampTiny_abs _
  · rw [Arr3.sliceY_val, hdy]
    exact clampTiny_abs _
  · rw [Arr3.sliceY_val, hdy]
    exact clampTiny_abs _
  · rw [Arr3.sliceZ_val, hdz]
    exact clampTiny_abs _
  · rw [Arr3.sliceZ_val, hdz]
    exact clampTiny_abs _

/-- Closed witness instantiating C7 at a step profile with a nonzero raw
difference. -/
theorem C7_witness :
    (d_x_raw stepPhi).val 2 0 0 ≠ 0
    ∧ (0 < (d_x_raw stepPhi).val 2 0 0 ↔ 0 < (d_x stepPhi).val 2 0 0)
    ∧ constants.TINY ≤ absQ ((d_x stepPhi).val 2 0 0) :=
  ⟨by norm_num [d_x_raw, stepPhi, mkConst, Arr3.cat5_x],
   (C7_clamp_magnitude_sign stepPhi 2 0 0).1.2
     (by norm_num [d_x_raw, stepPhi, mkConst, Arr3.cat5_x]),
   (C7_clamp_magnitude_sign stepPhi 2 0 0).1.1⟩

/-- C9: every exactly-zero consecutive difference is clamped to -TINY (the
first pass maps (-TINY, 0] to -TINY and the second pass no longer fires on
it), while only originally strictly positive dead-zone entries become
+TINY; this holds along all three axes. -/
theorem C9_zero_clamped_negative (phi : Unknown) (i j k : Nat) :
    ((d_x_raw phi).val i j k = 0 → (d_x phi).val i j k = -constants.TINY)
    ∧ (-constants.TINY < (d_x_raw phi).val i j k ∧ (d_x_raw phi).val i j k ≤ 0 →
        (d_x phi).val i j k = -constants.TINY)
    ∧ (0 < (d_x_raw phi).val i j k ∧ (d_x_raw phi).val i j k < constants.TINY →
        (d_x phi).val i j k = constants.TINY)
    ∧ ((d_y_raw phi).val i j k = 0 → (d_y phi).val i j k = -constants.TINY)
    ∧ (-constants.TINY < (d_y_raw phi).val i j k ∧ (d_y_raw phi).val i j k ≤ 0 →
        (d_y phi).val i j k = -constants.TINY)
    ∧ (0 < (d_y_raw phi).val i j k ∧ (d_y_raw phi).val i j k < constants.TINY →
        (d_y phi).val i j k = constants.TINY)
    ∧ ((d_z_raw phi).val i j k = 0 → (d_z phi).val i j k = -constants.TINY)
    ∧ (-constants.TINY < (d_z_raw phi).val i j k ∧ (d_z_raw phi).val i j k ≤ 0 →
        (d_z phi).val i j k = -constants.TINY)
    ∧ (0 < (d_z_raw phi).val i j k ∧ (d_z_raw phi).val i j k < constants.TINY →
        (d_z phi).val i j k = constants.TINY) := by
  have ht := TINY_pos
  have hdx : ∀ i j k, (d_x phi).val i j k = clampTiny ((d_x_raw phi).val i j k) :=
    fun _ _ _ => rfl
  have hdy : ∀ i j k, (d_y phi).val i j k = clampTiny ((d_y_raw phi).val i j k) :=
    fun _ _ _ => rfl
  have hdz : ∀ i j k, (d_z phi).val i j k = clampTiny ((d_z_raw phi).val i j k) :=
    fun _ _ _ => rfl
  refine ⟨?_, ?_, ?_, ?_, ?_, ?_, ?_, ?_, ?_⟩
  · intro h0
    rw [hdx, h0]
    exact clampTiny_zero
  · intro hd
    rw [hdx]
    exact clampTiny_nonpos _ hd.1 hd.2
  · intro hd
    rw [hdx]
    exact clampTiny_pos _ hd.1 hd.2
  · intro h0
    rw [hdy, h0]
    exact clampTiny_zero
  · intro hd
    rw [hdy]
    exact clampTiny_nonpos _ hd.1 hd.2
  · intro hd
    rw [hdy]
    exact clampTiny_pos _ hd.1 hd.2
  · intro h0
    rw [hdz, h0]
    exact clampTiny_zero
  · intro hd
    rw [hdz]
    exact clampTiny_nonpos _ hd.1 hd.2
  · intro hd
    rw [hdz]
    exact clampTiny_pos _ hd.1 hd.2

/-- Closed witness instantiating C9 at a uniform field whose raw
differences are exactly zero. -/
theorem C9_witness :
    (d_x_raw cexPhi).val 0 0 0 = 0
    ∧ (d_x cexPhi).val 0 0 0 = -constants.TINY :=
  ⟨by norm_num [d_x_raw, cexPhi, mkConst, Arr3.cat5_x],
   (C9_zero_clamped_negative cexPhi 0 0 0).1
     (by norm_num [d_x_raw, cexPhi, mkConst, Arr3.cat5_x])⟩

/-- C10: at every face exactly one flow-direction mask is active, the
positive mask is the indicator of a nonnegative face velocity and the
negative mask its logical complement, and a face with exactly zero normal
velocity is classified as positive-direction flow, selecting the
lower-index gradient ratio. -/
theorem C10_flow_masks (phi : Unknown) (fd : FaceData) (i j k : Nat) :
    ((flow_we fd).val i j k = 1 ∨ (flow_we fd).val i j k = 0)
    ∧ (flow_we fd).val i j k + (flow_ew fd).val i j k = 1
    ∧ (0 ≤ fd.u_fac.val i j k ↔ (flow_we fd).val i j k = 1)
    ∧ (flow_sn fd).val i j k + (flow_ns fd).val i j k = 1
    ∧ (flow_bt fd).val i j k + (flow_tb fd).val i j k = 1
    ∧ (fd.u_fac.val i j k = 0 →
        (flow_we fd).val i j k = 1 ∧ (flow_ew fd).val i j k = 0
        ∧ (r_x phi fd).val i j k = (r_x_we phi).val i j k)
    ∧ (fd.v_fac.val i j k = 0 →
        (flow_sn fd).val i j k = 1 ∧ (flow_ns fd).val i j k = 0
        ∧ (r_y phi fd).val i j k = (r_y_sn phi).val i j k)
    ∧ (fd.w_fac.val i j k = 0 →
        (flow_bt fd).val i j k = 1 ∧ (flow_tb fd).val i j k = 0
        ∧ (r_z phi fd).val i j k = (r_z_bt phi).val i j k) := by
  refine ⟨?_, ?_, ?_, ?_, ?_, ?_, ?_, ?_⟩
  · by_cases hu : 0 ≤ fd.u_fac.val i j k
    · left
      simp [hu]
    · right
      simp [hu]
  · rw [flow_ew_def]
    simp only [Arr3.lnot_val, flow_we_val]
    by_cases hu : 0 ≤ fd.u_fac.val i j k <;> simp [hu]
  · by_cases hu : 0 ≤ fd.u_fac.val i j k <;> simp [hu]
  · rw [flow_ns_def]
    simp only [Arr3.lnot_val, flow_sn_val]
    by_cases hv : 0 ≤ fd.v_fac.val i j k <;> simp [hv]
  · rw [flow_tb_def]
    simp only [Arr3.lnot_val, flow_bt_val]
    by_cases hw : 0 ≤ fd.w_fac.val i j k <;> simp [hw]
  · intro h0
    have hu : 0 ≤ fd.u_fac.val i j k := le_of_eq h0.symm
    refine ⟨by simp [hu], ?_, ?_⟩
    · rw [flow_ew_def]
      simp [hu]
    · unfold r_x
      rw [flow_ew_def]
      simp [hu]
  · intro h0
    have hv : 0 ≤ fd.v_fac.val i j k := le_of_eq h0.symm
    refine ⟨by simp [hv], ?_, ?_⟩
    · rw [flow_ns_def]
      simp [hv]
    · unfold r_y
      rw [flow_ns_def]
      simp [hv]
  · intro h0
    have hw : 0 ≤ fd.w_fac.val i j k := le_of_eq h0.symm
    refine ⟨by simp [hw], ?_, ?_⟩
    · rw [flow_tb_def]
      simp [hw]
    · unfold r_z
      rw [flow_tb_def]
      simp [hw]

/-- Closed witness instantiating C10 at face data with zero velocities. -/
theorem C10_witness :
    fdZero.u_fac.val 0 0 0 = 0
    ∧ ((flow_we fdZero).val 0 0 0 = 1 ∧ (flow_ew fdZero).val 0 0 0 = 0
      ∧ (r_x cexPhi fdZero).val 0 0 0 = (r_x_we cexPhi).val 0 0 0) :=
  ⟨rfl, (C10_flow_masks cexPhi fdZero 0 0 0).2.2.2.2.2.1 rfl⟩

/-- C8: the transport step computes its advective term through the
advection core with the minmod limiter and no matrix, builds the inertial
term as old value times averaged density times averaged cell volume over
dt, uses a zero source when src is absent and src times averaged cell
volume otherwise, assembles the right-hand side as the zero diffusive
right-hand side minus the advective term plus the inertial term plus the
source term, and writes the solver output into the value array of phi (the
in-place write and the absent Python return value are modelled by
returning the updated unknown). -/
theorem C8_calc_phi_assembly
    (create_matrix : Unknown → Arr3 → Arr3 → Arr3 × Arr3 × Arr3 → Option Arr3 → Nat → SystMatrix)
    (bicgstab : SystMatrix → Unknown → Arr3 → ℚ → Arr3)
    (adj_n_bnds : Unknown → Unknown)
    (avg : Nat → Arr3 → Arr3)
    (phi uf vf wf : Unknown) (density gamma : Arr3) (dt : ℚ)
    (dx dy dz : Arr3) (obst src : Option Arr3)
    (hpos : validPos phi.pos) :
    ∃ c,
      (advection density phi uf vf wf dx dy dz dt "minmod" none).result =
        Except.ok (c, none)
      ∧ calc_phi create_matrix bicgstab adj_n_bnds avg phi uf vf wf density gamma
          dt dx dy dz obst src =
        Except.ok (adj_n_bnds (Unknown.setVal phi
          (bicgstab
            (create_matrix phi (density / dt) gamma (dx, dy, dz) obst constants.NEUMANN)
            phi
            (zerosLike phi.val - c
             + phi.old * avg phi.pos density * avg phi.pos (dx * dy * dz) / dt
             + (match src with
                | none => zerosLike phi.val
                | some s => s * avg phi.pos (dx * dy * dz)))
            constants.TOL))) := by
  obtain ⟨fd, hfd⟩ := faceData_isSome density phi uf vf wf dx dy dz hpos
  have hadv : (advection density phi uf vf wf dx dy dz dt "minmod" none).result =
      Except.ok (c_lim phi fd (mx (zerosLike (r_x phi fd)) (mn (r_x phi fd) (onesLike (r_x phi fd))))
        (mx (zerosLike (r_y phi fd)) (mn (r_y phi fd) (onesLike (r_y phi fd))))
        (mx (zerosLike (r_z phi fd)) (mn (r_z phi fd) (onesLike (r_z phi fd)))) dt, none) := by
    rw [advection_explicit_eq density phi uf vf wf dx dy dz dt "minmod" hfd
      (psiOf_minmod (r_x phi fd)) (psiOf_minmod (r_y phi fd)) (psiOf_minmod (r_z phi fd))]
  refine ⟨_, hadv, ?_⟩
  simp only [calc_phi, hadv]

/-- Closed witness instantiating C8 with trivial collaborators on the
concrete single-cell setup. -/
theorem C8_witness :
    validPos cexPhi.pos ∧
    ∃ c,
      (advection cexOne cexPhi cexUf cexVf cexWf cexOne cexOne cexOne 1 "minmod" none).result =
        Except.ok (c, none)
      ∧ calc_phi wCreate wSolve wAdj wAvg cexPhi cexUf cexVf cexWf cexOne cexOne
          1 cexOne cexOne cexOne none none =
        Except.ok (wAdj (Unknown.setVal cexPhi
          (wSolve
            (wCreate cexPhi (cexOne / (1 : ℚ)) cexOne (cexOne, cexOne, cexOne) none constants.NEUMANN)
            cexPhi
            (zerosLike cexPhi.val - c
             + cexPhi.old * wAvg cexPhi.pos cexOne * wAvg cexPhi.pos (cexOne * cexOne * cexOne) / (1 : ℚ)
             + (match (none : Option Arr3) with
                | none => zerosLike cexPhi.val
                | some s => s * wAvg cexPhi.pos (cexOne * cexOne * cexOne)))
            constants.TOL))) :=
  ⟨by decide,
   C8_calc_phi_assembly wCreate wSolve wAdj wAvg cexPhi cexUf cexVf cexWf cexOne cexOne
     1 cexOne cexOne cexOne none none (by decide)⟩

/-- Counterexample to C4 as stated: a spatially uniform field (value 5 in
every cell and in all six boundary slabs) transported by a non-zero but
non-uniform velocity (zero on the west face, one on the east face) yields
a limited flux divergence of 5 - TINY/2 in the only cell, not zero: the
divergence of a uniform field is the field value times the divergence of
the face mass flow, which vanishes only for uniform face coefficients. -/
theorem C4_counterexample :
    Except.map (fun p => p.1.val 0 0 0)
      (advection cexOne cexPhi cexUf cexVf cexWf cexOne cexOne cexOne 0 "minmod" none).result =
      Except.ok (5 - constants.TINY / 2)
    ∧ (5 - constants.TINY / 2 : ℚ) ≠ 0 := by
  constructor
  · have hfd : faceData cexOne cexPhi cexUf cexVf cexWf cexOne cexOne cexOne =
        some (faceDataC cexOne cexUf cexVf cexWf cexOne cexOne cexOne cexPhi.per) := rfl
    rw [advection_explicit_eq cexOne cexPhi cexUf cexVf cexWf cexOne cexOne cexOne 0 "minmod" hfd
      (psiOf_minmod _) (psiOf_minmod _) (psiOf_minmod _)]
    simp only [Except.map]
    norm_num [c_lim, flux_fac_lim_x, flux_fac_lim_y, flux_fac_lim_z, faceDataC,
      patchX, patchY, patchZ, d_x, d_y, d_z, d_x_raw, d_y_raw, d_z_raw,
      r_x, r_y, r_z, r_x_we, r_x_ew, r_y_sn, r_y_ns, r_z_bt, r_z_tb,
      flow_we, flow_ew, flow_sn, flow_ns, flow_bt, flow_tb,
      Arr3.cat5_x, Arr3.cat5_y, Arr3.cat5_z, Arr3.cat3_x, Arr3.cat3_y, Arr3.cat3_z,
      Arr3.map, Arr3.lnot, Arr3.mx, Arr3.mn, Arr3.zipWith, clamp1, clamp2, absQ,
      max_def, min_def,
      cexPhi, cexUf, cexVf, cexWf, cexOne, mkConst, constants.TINY, constants.C]
  · norm_num [constants.TINY]

@[simp] theorem Arr3.map_val (f : ℚ → ℚ) (a : Arr3) (i j k : Nat) :
    (Arr3.map f a).val i j k = f (a.val i j k) := rfl

/-- On a spatially uniform field the raw consecutive x differences vanish
everywhere, in the periodic branches as well. -/
theorem d_x_raw_const (phi : Unknown) (p0 : ℚ)
    (hval : IsConst phi.val p0) (hW : IsConst phi.bndW p0)
    (hE : IsConst phi.bndE p0) :
    ∀ i j k, (d_x_raw phi).val i j k = 0 := by
  unfold IsConst at hval hW hE
  intro i j k
  unfold d_x_raw
  by_cases hper : phi.per.x = false
  · simp [hper, Arr3.cat5_x, hval, hW, hE]
  · by_cases hpos2 : phi.pos = constants.X
    · simp [hper, hpos2, Arr3.cat3_x, hval]
    · simp [hper, hpos2, Arr3.cat3_x, hval]

/-- On a spatially uniform field the raw consecutive y differences vanish
everywhere. -/
theorem d_y_raw_const (phi : Unknown) (p0 : ℚ)
    (hval : IsConst phi.val p0) (hS : IsConst phi.bndS p0)
    (hN : IsConst phi.bndN p0) :
    ∀ i j k, (d_y_raw phi).val i j k = 0 := by
  unfold IsConst at hval hS hN
  intro i j k
  unfold d_y_raw
  by_cases hper : phi.per.y = false
  · simp [hper, Arr3.cat5_y, hval, hS, hN]
  · by_cases hpos2 : phi.pos = constants.Y
    · simp [hper, hpos2, Arr3.cat3_y, hval]
    · simp [hper, hpos2, Arr3.cat3_y, hval]

/-- On a spatially uniform field the raw consecutive z differences vanish
everywhere. -/
theorem d_z_raw_const (phi : Unknown) (p0 : ℚ)
    (hval : IsConst phi.val p0) (hB : IsConst phi.bndB p0)
    (hT : IsConst phi.bndT p0) :
    ∀ i j k, (d_z_raw phi).val i j k = 0 := by
  unfold IsConst at hval hB hT
  intro i j k
  unfold d_z_raw
  by_cases hper : phi.per.z = false
  · simp [hper, Arr3.cat5_z, hval, hB, hT]
  · by_cases hpos2 : phi.pos = constants.Z
    · simp [hper, hpos2, Arr3.cat3_z, hval]
    · simp [hper, hpos2, Arr3.cat3_z, hval]

/-- On a spatially uniform field the clamped x differences are the clamp of
zero everywhere. -/
theorem d_x_const (phi : Unknown) (p0 : ℚ)
    (hval : IsConst phi.val p0) (hW : IsConst phi.bndW p0)
    (hE : IsConst phi.bndE p0) :
    ∀ i j k, (d_x phi).val i j k = clampTiny 0 := by
  intro i j k
  show clamp2 (clamp1 ((d_x_raw phi).val i j k)) = clampTiny 0
  rw [d_x_raw_const phi p0 hval hW hE i j k]
  rfl

/-- On a spatially uniform field the clamped y differences are the clamp of
zero everywhere. -/
theorem d_y_const (phi : Unknown) (p0 : ℚ)
    (hval : IsConst phi.val p0) (hS : IsConst phi.bndS p0)
    (hN : IsConst phi.bndN p0) :
    ∀ i j k, (d_y phi).val i j k = clampTiny 0 := by
  intro i j k
  show clamp2 (clamp1 ((d_y_raw phi).val i j k)) = clampTiny 0
  rw [d_y_raw_const phi p0 hval hS hN i j k]
  rfl

/-- On a spatially uniform field the clamped z differences are the clamp of
zero everywhere. -/
theorem d_z_const (phi : Unknown) (p0 : ℚ)
    (hval : IsConst phi.val p0) (hB : IsConst phi.bndB p0)
    (hT : IsConst phi.bndT p0) :
    ∀ i j k, (d_z phi).val i j k = clampTiny 0 := by
  intro i j k
  show clamp2 (clamp1 ((d_z_raw phi).val i j k)) = clampTiny 0
  rw [d_z_raw_const phi p0 hval hB hT i j k]
  rfl

/-- With entrywise-constant clamped differences and an entrywise-constant
face velocity the selected x gradient ratio is the same at every entry. -/
theorem r_x_fixed (phi : Unknown) (fd : FaceData)
    (hd : ∀ i j k, (d_x phi).val i j k = clampTiny 0)
    (hu : ∀ i j k, fd.u_fac.val i j k = fd.u_fac.val 0 0 0) :
    ∀ i j k, (r_x phi fd).val i j k = (r_x phi fd).val 0 0 0 := by
  intro i j k
  unfold r_x r_x_we r_x_ew flow_ew Arr3.lnot
  simp only [Arr3.add_val, Arr3.mul_val, Arr3.div_val, Arr3.sliceX_val,
    Arr3.map_val, flow_we_val, hd, hu]

/-- Entrywise-fixedness of the selected y gradient ratio. -/
theorem r_y_fixed (phi : Unknown) (fd : FaceData)
    (hd : ∀ i j k, (d_y phi).val i j k = clampTiny 0)
    (hv : ∀ i j k, fd.v_fac.val i j k = fd.v_fac.val 0 0 0) :
    ∀ i j k, (r_y phi fd).val i j k = (r_y phi fd).val 0 0 0 := by
  intro i j k
  unfold r_y r_y_sn r_y_ns flow_ns Arr3.lnot
  simp only [Arr3.add_val, Arr3.mul_val, Arr3.div_val, Arr3.sliceY_val,
    Arr3.map_val, flow_sn_val, hd, hv]

/-- Entrywise-fixedness of the selected z gradient ratio. -/
theorem r_z_fixed (phi : Unknown) (fd : FaceData)
    (hd : ∀ i j k, (d_z phi).val i j k = clampTiny 0)
    (hw : ∀ i j k, fd.w_fac.val i j k = fd.w_fac.val 0 0 0) :
    ∀ i j k, (r_z phi fd).val i j k = (r_z phi fd).val 0 0 0 := by
  intro i j k
  unfold r_z r_z_bt r_z_tb flow_tb Arr3.lnot
  simp only [Arr3.add_val, Arr3.mul_val, Arr3.div_val, Arr3.sliceZ_val,
    Arr3.map_val, flow_bt_val, hd, hw]

/-- A supported limiter applied to an entrywise-fixed ratio array yields an
entrywise-fixed correction array. -/
theorem psiOf_fixed {limiter : String} {r p : Arr3}
    (hmem : limiter ∈ validLimiters)
    (hr : ∀ i j k, r.val i j k = r.val 0 0 0)
    (hp : psiOf limiter r = some p) :
    ∀ i j k, p.val i j k = p.val 0 0 0 := by
  simp only [validLimiters, List.mem_cons, List.mem_singleton,
    List.not_mem_nil, or_false] at hmem
  intro i j k
  rcases hmem with h | h | h | h <;> subst h
  · rw [psiOf_upwind] at hp
    injection hp with hp
    subst hp
    simp [hr]
  · rw [psiOf_minmod] at hp
    injection hp with hp
    subst hp
    simp only [Arr3.mx_val, Arr3.mn_val, Arr3.zerosLike_val, Arr3.onesLike_val, hr]
  · rw [psiOf_superbee] at hp
    injection hp with hp
    subst hp
    simp only [Arr3.mx3, Arr3.mx_val, Arr3.mn_val, Arr3.mnS_val,
      Arr3.zerosLike_val, Arr3.onesLike_val, Arr3.smulL_val, hr]
  · rw [psiOf_koren] at hp
    injection hp with hp
    subst hp
    simp only [Arr3.mn3, Arr3.mx_val, Arr3.mn_val, Arr3.zerosLike_val,
      Arr3.onesLike_val, Arr3.smulL_val, Arr3.sdivR_val, Arr3.saddL_val, hr]

set_option maxHeartbeats 2000000 in
/-- C4 amended: for a spatially uniform transported field, uniform velocity
components, uniform density and uniform cell sizes, explicit-mode advection
with zero time step returns an exactly zero limited flux divergence for
every supported limiter and placement.  (The claim as stated fails: with a
non-uniform velocity the divergence is the field value times the divergence
of the face mass flow, and with a positive time step the distance-dependent
Courant factor at the non-periodic boundary faces multiplies the clamped
zero gradient into a nonzero boundary contribution.) -/
theorem C4_amended_uniform_zero (rho : Arr3) (phi uf vf wf : Unknown)
    (dx dy dz : Arr3) (limiter : String)
    (p0 r0 u0 v0 w0 cx cy cz : ℚ)
    (hpos : validPos phi.pos) (hlim : limiter ∈ validLimiters)
    (hp1 : IsConst phi.val p0) (hp2 : IsConst phi.bndW p0) (hp3 : IsConst phi.bndE p0)
    (hp4 : IsConst phi.bndS p0) (hp5 : IsConst phi.bndN p0)
    (hp6 : IsConst phi.bndB p0) (hp7 : IsConst phi.bndT p0)
    (hr0 : IsConst rho r0)
    (hg1 : IsConst dx cx) (hg2 : IsConst dy cy) (hg3 : IsConst dz cz)
    (hu1 : IsConst uf.val u0) (hu2 : IsConst uf.bndW u0) (hu3 : IsConst uf.bndE u0)
    (hv1 : IsConst vf.val v0) (hv2 : IsConst vf.bndS v0) (hv3 : IsConst vf.bndN v0)
    (hw1 : IsConst wf.val w0) (hw2 : IsConst wf.bndB w0) (hw3 : IsConst wf.bndT w0) :
    ∃ y, (advection rho phi uf vf wf dx dy dz 0 limiter none).result =
        Except.ok (y, none)
      ∧ ∀ i j k, y.val i j k = 0 := by
  have hdxc := d_x_const phi p0 hp1 hp2 hp3
  have hdyc := d_y_const phi p0 hp1 hp4 hp5
  have hdzc := d_z_const phi p0 hp1 hp6 hp7
  unfold IsConst at hp1 hp2 hp3 hp4 hp5 hp6 hp7 hr0 hg1 hg2 hg3
  unfold IsConst at hu1 hu2 hu3 hv1 hv2 hv3 hw1 hw2 hw3
  rcases hpos with hp | hp | hp | hp
  · have hfd : faceData rho phi uf vf wf dx dy dz =
        some (faceDataC rho uf vf wf dx dy dz phi.per) := by
      unfold faceData
      simp [hp]
    have hu : ∀ i j k, (faceDataC rho uf vf wf dx dy dz phi.per).u_fac.val i j k =
        (faceDataC rho uf vf wf dx dy dz phi.per).u_fac.val 0 0 0 := by
      intro i j k
      simp [faceDataC, Arr3.cat3_x, hu1, hu2, hu3]
    have hv : ∀ i j k, (faceDataC rho uf vf wf dx dy dz phi.per).v_fac.val i j k =
        (faceDataC rho uf vf wf dx dy dz phi.per).v_fac.val 0 0 0 := by
      intro i j k
      simp [faceDataC, Arr3.cat3_y, hv1, hv2, hv3]
    have hw : ∀ i j k, (faceDataC rho uf vf wf dx dy dz phi.per).w_fac.val i j k =
        (faceDataC rho uf vf wf dx dy dz phi.per).w_fac.val 0 0 0 := by
      intro i j k
      simp [faceDataC, Arr3.cat3_z, hw1, hw2, hw3]
    obtain ⟨px, hpx⟩ := psiOf_isSome (r_x phi (faceDataC rho uf vf wf dx dy dz phi.per)) hlim
    obtain ⟨py, hpy⟩ := psiOf_isSome (r_y phi (faceDataC rho uf vf wf dx dy dz phi.per)) hlim
    obtain ⟨pz, hpz⟩ := psiOf_isSome (r_z phi (faceDataC rho uf vf wf dx dy dz phi.per)) hlim
    have hpxc := psiOf_fixed hlim (r_x_fixed phi _ hdxc hu) hpx
    have hpyc := psiOf_fixed hlim (r_y_fixed phi _ hdyc hv) hpy
    have hpzc := psiOf_fixed hlim (r_z_fixed phi _ hdzc hw) hpz
    refine ⟨c_lim phi (faceDataC rho uf vf wf dx dy dz phi.per) px py pz 0, ?_, ?_⟩
    · rw [advection_explicit_eq rho phi uf vf wf dx dy dz 0 limiter hfd hpx hpy hpz]
    · intro i j k
      simp [c_lim, flux_fac_lim_x, flux_fac_lim_y, flux_fac_lim_z, faceDataC,
        patchX, patchY, patchZ, Arr3.cat3_x, Arr3.cat3_y, Arr3.cat3_z,
        hp1, hp2, hp3, hp4, hp5, hp6, hp7, hr0, hg1, hg2, hg3,
        hu1, hu2, hu3, hv1, hv2, hv3, hw1, hw2, hw3,
        flow_ew_def, flow_ns_def, flow_tb_def,
        hdxc, hdyc, hdzc, hpxc, hpyc, hpzc, add_self_div_two]
  · have hfd : faceData rho phi uf vf wf dx dy dz =
        some (faceDataX rho uf vf wf dx dy dz phi.per) := by
      unfold faceData
      simp [hp, constants.C, constants.X, constants.Y, constants.Z]
    have hu : ∀ i j k, (faceDataX rho uf vf wf dx dy dz phi.per).u_fac.val i j k =
        (faceDataX rho uf vf wf dx dy dz phi.per).u_fac.val 0 0 0 := by
      intro i j k
      simp [faceDataX, Arr3.cat3_x, hu1, hu2, hu3, add_self_div_two]
    have hv : ∀ i j k, (faceDataX rho uf vf wf dx dy dz phi.per).v_fac.val i j k =
        (faceDataX rho uf vf wf dx dy dz phi.per).v_fac.val 0 0 0 := by
      intro i j k
      simp [faceDataX, Arr3.cat3_y, hv1, hv2, hv3, add_self_div_two]
    have hw : ∀ i j k, (faceDataX rho uf vf wf dx dy dz phi.per).w_fac.val i j k =
        (faceDataX rho uf vf wf dx dy dz phi.per).w_fac.val 0 0 0 := by
      intro i j k
      simp [faceDataX, Arr3.cat3_z, hw1, hw2, hw3, add_self_div_two]
    obtain ⟨px, hpx⟩ := psiOf_isSome (r_x phi (faceDataX rho uf vf wf dx dy dz phi.per)) hlim
    obtain ⟨py, hpy⟩ := psiOf_isSome (r_y phi (faceDataX rho uf vf wf dx dy dz phi.per)) hlim
    obtain ⟨pz, hpz⟩ := psiOf_isSome (r_z phi (faceDataX rho uf vf wf dx dy dz phi.per)) hlim
    have hpxc := psiOf_fixed hlim (r_x_fixed phi _ hdxc hu) hpx
    have hpyc := psiOf_fixed hlim (r_y_fixed phi _ hdyc hv) hpy
    have hpzc := psiOf_fixed hlim (r_z_fixed phi _ hdzc hw) hpz
    refine ⟨c_lim phi (faceDataX rho uf vf wf dx dy dz phi.per) px py pz 0, ?_, ?_⟩
    · rw [advection_explicit_eq rho phi uf vf wf dx dy dz 0 limiter hfd hpx hpy hpz]
    · intro i j k
      simp [c_lim, flux_fac_lim_x, flux_fac_lim_y, flux_fac_lim_z, faceDataX,
        patchX, patchY, patchZ, Arr3.cat3_x, Arr3.cat3_y, Arr3.cat3_z,
        hp1, hp2, hp3, hp4, hp5, hp6, hp7, hr0, hg1, hg2, hg3,
        hu1, hu2, hu3, hv1, hv2, hv3, hw1, hw2, hw3,
        flow_ew_def, flow_ns_def, flow_tb_def,
        hdxc, hdyc, hdzc, hpxc, hpyc, hpzc, add_self_div_two]
  · have hfd : faceData rho phi uf vf wf dx dy dz =
        some (faceDataY rho uf vf wf dx dy dz phi.per) := by
      unfold faceData
      simp [hp, constants.C, constants.X, constants.Y, constants.Z]
    have hu : ∀ i j k, (faceDataY rho uf vf wf dx dy dz phi.per).u_fac.val i j k =
        (faceDataY rho uf vf wf dx dy dz phi.per).u_fac.val 0 0 0 := by
      intro i j k
      simp [faceDataY, Arr3.cat3_x, hu1, hu2, hu3, add_self_div_two]
    have hv : ∀ i j k, (faceDataY rho uf vf wf dx dy dz phi.per).v_fac.val i j k =
        (faceDataY rho uf vf wf dx dy dz phi.per).v_fac.val 0 0 0 := by
      intro i j k
      simp [faceDataY, Arr3.cat3_y, hv1, hv2, hv3, add_self_div_two]
    have hw : ∀ i j k, (faceDataY rho uf vf wf dx dy dz phi.per).w_fac.val i j k =
        (faceDataY rho uf vf wf dx dy dz phi.per).w_fac.val 0 0 0 := by
      intro i j k
      simp [faceDataY, Arr3.cat3_z, hw1, hw2, hw3, add_self_div_two]
    obtain ⟨px, hpx⟩ := psiOf_isSome (r_x phi (faceDataY rho uf vf wf dx dy dz phi.per)) hlim
    obtain ⟨py, hpy⟩ := psiOf_isSome (r_y phi (faceDataY rho uf vf wf dx dy dz phi.per)) hlim
    obtain ⟨pz, hpz⟩ := psiOf_isSome (r_z phi (faceDataY rho uf vf wf dx dy dz phi.per)) hlim
    have hpxc := psiOf_fixed hlim (r_x_fixed phi _ hdxc hu) hpx
    have hpyc := psiOf_fixed hlim (r_y_fixed phi _ hdyc hv) hpy
    have hpzc := psiOf_fixed hlim (r_z_fixed phi _ hdzc hw) hpz
    refine ⟨c_lim phi (faceDataY rho uf vf wf dx dy dz phi.per) px py pz 0, ?_, ?_⟩
    · rw [advection_explicit_eq rho phi uf vf wf dx dy dz 0 limiter hfd hpx hpy hpz]
    · intro i j k
      simp [c_lim, flux_fac_lim_x, flux_fac_lim_y, flux_fac_lim_z, faceDataY,
        patchX, patchY, patchZ, Arr3.cat3_x, Arr3.cat3_y, Arr3.cat3_z,
        hp1, hp2, hp3, hp4, hp5, hp6, hp7, hr0, hg1, hg2, hg3,
        hu1, hu2, hu3, hv1, hv2, hv3, hw1, hw2, hw3,
        flow_ew_def, flow_ns_def, flow_tb_def,
        hdxc, hdyc, hdzc, hpxc, hpyc, hpzc, add_self_div_two]
  · have hfd : faceData rho phi uf vf wf dx dy dz =
        some (faceDataZ rho uf vf wf dx dy dz phi.per) := by
      unfold faceData
      simp [hp, constants.C, constants.X, constants.Y, constants.Z]
    have hu : ∀ i j k, (faceDataZ rho uf vf wf dx dy dz phi.per).u_fac.val i j k =
        (faceDataZ rho uf vf wf dx dy dz phi.per).u_fac.val 0 0 0 := by
      intro i j k
      simp [faceDataZ, Arr3.cat3_x, hu1, hu2, hu3, add_self_div_two]
    have hv : ∀ i j k, (faceDataZ rho uf vf wf dx dy dz phi.per).v_fac.val i j k =
        (faceDataZ rho uf vf wf dx dy dz phi.per).v_fac.val 0 0 0 := by
      intro i j k
      simp [faceDataZ, Arr3.cat3_y, hv1, hv2, hv3, add_self_div_two]
    have hw : ∀ i j k, (faceDataZ rho uf vf wf dx dy dz phi.per).w_fac.val i j k =
        (faceDataZ rho uf vf wf dx dy dz phi.per).w_fac.val 0 0 0 := by
      intro i j k
      simp [faceDataZ, Arr3.cat3_z, hw1, hw2, hw3, add_self_div_two]
    obtain ⟨px, hpx⟩ := psiOf_isSome (r_x phi (faceDataZ rho uf vf wf dx dy dz phi.per)) hlim
    obtain ⟨py, hpy⟩ := psiOf_isSome (r_y phi (faceDataZ rho uf vf wf dx dy dz phi.per)) hlim
    obtain ⟨pz, hpz⟩ := psiOf_isSome (r_z phi (faceDataZ rho uf vf wf dx dy dz phi.per)) hlim
    have hpxc := psiOf_fixed hlim (r_x_fixed phi _ hdxc hu) hpx
    have hpyc := psiOf_fixed hlim (r_y_fixed phi _ hdyc hv) hpy
    have hpzc := psiOf_fixed hlim (r_z_fixed phi _ hdzc hw) hpz
    refine ⟨c_lim phi (faceDataZ rho uf vf wf dx dy dz phi.per) px py pz 0, ?_, ?_⟩
    · rw [advection_explicit_eq rho phi uf vf wf dx dy dz 0 limiter hfd hpx hpy hpz]
    · intro i j k
      simp [c_lim, flux_fac_lim_x, flux_fac_lim_y, flux_fac_lim_z, faceDataZ,
        patchX, patchY, patchZ, Arr3.cat3_x, Arr3.cat3_y, Arr3.cat3_z,
        hp1, hp2, hp3, hp4, hp5, hp6, hp7, hr0, hg1, hg2, hg3,
        hu1, hu2, hu3, hv1, hv2, hv3, hw1, hw2, hw3,
        flow_ew_def, flow_ns_def, flow_tb_def,
        hdxc, hdyc, hdzc, hpxc, hpyc, hpzc, add_self_div_two]

/-- Every constant-built concrete array is spatially uniform. -/
theorem mkConst_isConst (n1 n2 n3 : Nat) (c : ℚ) : IsConst (mkConst n1 n2 n3 c) c :=
  fun _ _ _ => rfl

/-- Closed witness instantiating the amended C4 on a fully uniform concrete
setup with the koren limiter. -/
theorem C4_witness :
    (validPos cexPhi.pos ∧ "koren" ∈ validLimiters
      ∧ IsConst cexPhi.val 5 ∧ IsConst cexPhi.bndW 5 ∧ IsConst cexPhi.bndE 5
      ∧ IsConst cexPhi.bndS 5 ∧ IsConst cexPhi.bndN 5
      ∧ IsConst cexPhi.bndB 5 ∧ IsConst cexPhi.bndT 5
      ∧ IsConst cexOne 1
      ∧ IsConst uniUf.val 1 ∧ IsConst uniUf.bndW 1 ∧ IsConst uniUf.bndE 1
      ∧ IsConst uniVf.val 1 ∧ IsConst uniVf.bndS 1 ∧ IsConst uniVf.bndN 1
      ∧ IsConst uniWf.val 1 ∧ IsConst uniWf.bndB 1 ∧ IsConst uniWf.bndT 1)
    ∧ ∃ y,
        (advection cexOne cexPhi uniUf uniVf uniWf cexOne cexOne cexOne 0 "koren" none).result =
          Except.ok (y, none)
        ∧ ∀ i j k, y.val i j k = 0 :=
  ⟨⟨by decide, by decide,
    mkConst_isConst 1 1 1 5, mkConst_isConst 1 1 1 5, mkConst_isConst 1 1 1 5,
    mkConst_isConst 1 1 1 5, mkConst_isConst 1 1 1 5, mkConst_isConst 1 1 1 5,
    mkConst_isConst 1 1 1 5, mkConst_isConst 1 1 1 1,
    mkConst_isConst 0 1 1 1, mkConst_isConst 1 1 1 1, mkConst_isConst 1 1 1 1,
    mkConst_isConst 1 0 1 1, mkConst_isConst 1 1 1 1, mkConst_isConst 1 1 1 1,
    mkConst_isConst 1 1 0 1, mkConst_isConst 1 1 1 1, mkConst_isConst 1 1 1 1⟩,
   C4_amended_uniform_zero cexOne cexPhi uniUf uniVf uniWf cexOne cexOne cexOne "koren"
     5 1 1 1 1 1 1 1 (by decide) (by decide)
     (mkConst_isConst 1 1 1 5) (mkConst_isConst 1 1 1 5) (mkConst_isConst 1 1 1 5)
     (mkConst_isConst 1 1 1 5) (mkConst_isConst 1 1 1 5) (mkConst_isConst 1 1 1 5)
     (mkConst_isConst 1 1 1 5) (mkConst_isConst 1 1 1 1)
     (mkConst_isConst 1 1 1 1) (mkConst_isConst 1 1 1 1) (mkConst_isConst 1 1 1 1)
     (mkConst_isConst 0 1 1 1) (mkConst_isConst 1 1 1 1) (mkConst_isConst 1 1 1 1)
     (mkConst_isConst 1 0 1 1) (mkConst_isConst 1 1 1 1) (mkConst_isConst 1 1 1 1)
     (mkConst_isConst 1 1 0 1) (mkConst_isConst 1 1 1 1) (mkConst_isConst 1 1 1 1)⟩
